import Mathlib

/-!
# Capture-device lifecycle manager of unitehud (media/video/device/device.go)

A shallow embedding of the package `device`: the region extractor
(`Capture`, `CaptureRect`), the session state machine (`Open`, `Close`,
`stop`, `reset`), the capture task (`capture`, `running`), the source catalog
(`sources` and the discovery pass of `init`) and the backend registry (`API`,
`APIs` and the registry goroutine of `init`).

Go's `int` is embedded as `Int`: the functions below only compare and subtract
coordinates and device indices, no claim depends on wrap-around.  A Go `error`
is an `Option String` (`none` is `nil`), a `*image.RGBA` is an
`Option RGBAImage`.

The goroutines are embedded as a step function `step` on the state `Sys`: the
package variables, the position of the goroutine that calls `Open` and `Close`
(`Caller`), the position of every capture goroutine (`Task`), the set of closed
channels, and the trace of what was logged and done.  A move is one stretch of
code between two channel operations; a rendezvous on an unbuffered channel is
one move of both goroutines.  What the hardware answers and which goroutine
moves next is the argument of `step`, so every interleaving is a list of moves.
-/

namespace Device

/-! ## Go's `image` package: points and rectangles -/

/-- Go `image.Point`. -/
structure Point where
  X : Int
  Y : Int
deriving DecidableEq, Repr

/-- Go `image.Rectangle`: `Min` inclusive, `Max` exclusive. -/
structure Rectangle where
  Min : Point
  Max : Point
deriving DecidableEq, Repr

/-- Go `strconv.Itoa`. -/
def Itoa (i : Int) : String := toString i

/-- Go `Point.String`: the two coordinates between brackets. -/
def Point.String (p : Point) : String :=
  "(" ++ Itoa p.X ++ "," ++ Itoa p.Y ++ ")"

/-- Go `Rectangle.String`: `Min` and `Max` joined by a dash. -/
def Rectangle.String (r : Rectangle) : String :=
  r.Min.String ++ "-" ++ r.Max.String

/-- Go `image.Rect`: the rectangle of two corners, swapped into order. -/
def Rect (x0 y0 x1 y1 : Int) : Rectangle :=
  let (x0, x1) := if x0 > x1 then (x1, x0) else (x0, x1)
  let (y0, y1) := if y0 > y1 then (y1, y0) else (y0, y1)
  ⟨⟨x0, y0⟩, ⟨x1, y1⟩⟩

/-- Go `Rectangle.Dx`: the width. -/
def Rectangle.Dx (r : Rectangle) : Int := r.Max.X - r.Min.X

/-- Go `Rectangle.Dy`: the height. -/
def Rectangle.Dy (r : Rectangle) : Int := r.Max.Y - r.Min.Y

/-- Go `Rectangle.Empty`: the rectangle holds no point. -/
def Rectangle.Empty (r : Rectangle) : Bool :=
  r.Min.X ≥ r.Max.X || r.Min.Y ≥ r.Max.Y

/-- Go `Rectangle.In`: every point of `r` is in `s`; an empty `r` is in every `s`. -/
def Rectangle.In (r s : Rectangle) : Bool :=
  if r.Empty then true
  else
    decide (s.Min.X ≤ r.Min.X) && decide (r.Max.X ≤ s.Max.X) &&
    decide (s.Min.Y ≤ r.Min.Y) && decide (r.Max.Y ≤ s.Max.Y)

/-- Go `Rectangle.Eq`: the same set of points; all empty rectangles are equal. -/
def Rectangle.Eq (r s : Rectangle) : Bool :=
  decide (r = s) || (r.Empty && s.Empty)

/-! ## The frame buffer and the collaborators that are not among the sources -/

/-- A `gocv.Mat` frame: its rows, its columns and a tag standing for the pixel data. -/
structure Mat where
  rows : Nat
  cols : Nat
  frame : Nat
deriving DecidableEq, Repr

/-- The method `Mat.Empty` of gocv (OpenCV `empty`): the matrix has no element. -/
def Mat.Empty (m : Mat) : Bool := m.rows == 0 || m.cols == 0

/-- The method `Mat.Size` of gocv: the dimension sizes, rows first. -/
def Mat.Size (m : Mat) : List Int := [(m.rows : Int), (m.cols : Int)]

/-- Go `*image.RGBA`, reduced to its bounds `Rect`. -/
structure RGBAImage where
  Rect : Rectangle
deriving DecidableEq, Repr

/-- The constants and library functions the package imports from files that are
not among the sources; every definition below takes them as a parameter. -/
structure Env where
  /-- The variable `monitor.MainResolution`. -/
  MainResolution : Rectangle
  /-- The constant `config.NoVideoCaptureDevice`, the sentinel device id. -/
  NoVideoCaptureDevice : Int
  /-- The constant `config.MainDisplay`. -/
  MainDisplay : String
  /-- The placeholder frame `splash.DeviceMat().Clone()`. -/
  DeviceMat : Mat
  /-- The method `Mat.Region` of gocv. -/
  Region : Mat → Rectangle → Mat
  /-- The function `img.RGBA`. -/
  RGBA : Mat → Option RGBAImage × Option String
  /-- The method `String` of `gocv.VideoCaptureAPI`. -/
  APIString : Int → String
  /-- Go `strings.ReplaceAll`. -/
  ReplaceAll : String → String → String → String
  /-- Go `strings.Title`. -/
  Title : String → String

/-! ## Region extractor (device.go, `Capture` and `CaptureRect`) -/

/-- The function `CaptureRect` of device.go, reading the frame buffer `mat`. -/
def CaptureRect (env : Env) (mat : Mat) (rect : Rectangle) :
    Option RGBAImage × Option String :=
  if mat.Empty then
    (none, none)
  else if !(rect.In env.MainResolution) then
    (none, some ("illegal boundaries " ++ rect.String ++ " intersects "
      ++ env.MainResolution.String))
  else
    let s := mat.Size
    let mrect := Rect 0 0 (s.getD 1 0) (s.getD 0 0)
    if !(rect.In mrect) then
      (none, some ("illegal boundaries " ++ rect.String ++ ", " ++ mrect.String))
    else
      env.RGBA (env.Region mat rect)

/-- The function `Capture` of device.go. -/
def Capture (env : Env) (mat : Mat) : Option RGBAImage × Option String :=
  CaptureRect env mat env.MainResolution

/-- The bounds `image.Rect(0, 0, cols, rows)` of a frame buffer. -/
def Mat.Bounds (m : Mat) : Rectangle := Rect 0 0 m.cols m.rows


/-! ## Session state (device.go, the package variables) -/

/-- The struct `device` of device.go: one session and its three channels, each
identified by the serial number `make` gave it. -/
structure device where
  id : Int
  name : String
  closeq : Nat
  closedq : Nat
  errq : Nat
deriving DecidableEq, Repr

/-- The fields of `config.Current` the package reads and writes. -/
structure Config where
  VideoCaptureWindow : String
  VideoCaptureDevice : Int
  VideoCaptureAPI : String
deriving DecidableEq, Repr

/-- The package variable `apis`: the names and the map `values` as an
association list (a missing key reads as 0, as in a Go map). -/
structure Registry where
  names : List String
  values : List (String × Int)
deriving DecidableEq, Repr

/-- The severity of a `notify` call. -/
inductive Level where
  | Debug
  | System
  | Warn
  | Error
deriving DecidableEq, Repr

/-- What the package does to the outside, in program order. -/
inductive Event where
  /-- A call of `notify.Debug`, `notify.System`, `notify.Warn` or `notify.Error`. -/
  | notify (level : Level) (text : String)
  /-- The statement `go active.capture()`. -/
  | spawn (d : device)
  /-- A successful `gocv.OpenVideoCaptureWithAPI` in the task of `d`. -/
  | acquire (d : device)
  /-- The deferred `device.Close()` in the task of `d`. -/
  | release (d : device)
  /-- A `close(c)` of a channel. -/
  | closeChan (c : Nat)
  /-- The call of `Open` returns `err`. -/
  | openReturned (err : Option String)
  /-- The call of `Close` returns. -/
  | closeReturned
deriving DecidableEq, Repr

/-- Where the goroutine running `(*device).capture` stands. -/
inductive Phase where
  /-- Spawned, before its startup report on `errq` (lines 197-231). -/
  | starting
  /-- Returned after sending a startup error (lines 207, 221, 228), deferred
  calls pending; `handle` tells whether `device.Close()` is among them. -/
  | failed (handle : Bool)
  /-- In the run loop (lines 233-240). -/
  | looping
  /-- Returned from the run loop (line 238 or `running()` false), deferred calls pending. -/
  | leaving
  /-- The deferred calls have run: `closedq` is closed. -/
  | done
deriving DecidableEq, Repr

/-- A capture goroutine: the session it was started on and where it stands. -/
structure Task where
  d : device
  phase : Phase
deriving DecidableEq, Repr

/-- Where the goroutine calling `Open` and `Close` stands. -/
inductive Caller where
  /-- Outside `Open` and `Close`. -/
  | idle
  /-- In `Open`, blocked in `<-active.errq` (line 187). -/
  | opening (d : device)
  /-- In `d.stop()`, blocked in the `select` (line 140); `fired` tells whether
  the case `<-t.C` has already been taken. -/
  | stopping (d : device) (fired : Bool)
  /-- In `d.stop()`, blocked in `<-t.C` (line 144) after `t.Stop()` returned false
  on a timer whose value the `select` had already received. -/
  | draining (d : device)
deriving DecidableEq, Repr

/-- The package variables, the goroutines and the trace of events. -/
structure Sys where
  active : device
  config : Config
  mat : Mat
  Sources : List Int
  names : List String
  apis : Registry
  /-- The serial number the next `make(chan ...)` gives. -/
  next : Nat
  /-- The channels that have been closed. -/
  closed : List Nat
  tasks : List Task
  caller : Caller
  trace : List Event
deriving DecidableEq, Repr

/-- What the device does during the startup of one capture task: whether
`OpenVideoCaptureWithAPI` succeeds, and the two pairs of frame width and height
that `device.Get` reads back (lines 216-217 and line 224), converted to `int`. -/
structure Hardware where
  opens : Bool
  width : Int
  height : Int
  width2 : Int
  height2 : Int
deriving DecidableEq, Repr

/-- The function `ActiveName` of device.go. -/
def ActiveName (s : Sys) : String := s.active.name

/-- The function `IsActive` of device.go. -/
def IsActive (env : Env) (s : Sys) : Bool :=
  s.active.id != env.NoVideoCaptureDevice

/-- The function `Name` of device.go; `none` is the index-out-of-range panic of
`names[d]` for a negative `d`. -/
def Name (env : Env) (names : List String) (d : Int) : Option String :=
  if d = env.NoVideoCaptureDevice then
    some "Disabled"
  else if d ≠ env.NoVideoCaptureDevice ∧ (names.length : Int) > d then
    (if 0 ≤ d then names[d.toNat]? else none)
  else
    some ("Device: " ++ Itoa d)

/-- A read `apis.values[key]` of the Go map. -/
def Registry.value (r : Registry) (key : String) : Int :=
  (r.values.lookup key).getD 0

/-- The function `API` of device.go; `none` is the index-out-of-range panic of
`apis.names[0]` on an empty list. -/
def API (apis : Registry) (api : String) : Option Int :=
  if api = "" then
    match apis.names with
    | [] => none
    | first :: _ => some (apis.value first)
  else
    some (apis.value api)

/-- The function `APIName` of device.go. -/
def APIName (env : Env) (api : Int) : String :=
  env.Title (env.ReplaceAll (env.APIString api) "video-capture-" "")

/-- The function `reset` of device.go. -/
def reset (env : Env) (s : Sys) : Sys :=
  { s with
    config := { s.config with
      VideoCaptureWindow := env.MainDisplay
      VideoCaptureDevice := env.NoVideoCaptureDevice }
    active := ⟨env.NoVideoCaptureDevice, "Disabled", s.next, s.next + 1, s.next + 2⟩
    next := s.next + 3 }

/-- Append one event to the trace. -/
def Sys.emit (s : Sys) (e : Event) : Sys := { s with trace := s.trace ++ [e] }

/-- How far a call gets before it blocks. -/
inductive Outcome where
  /-- The call panics. -/
  | panic
  /-- The call blocks on a channel operation, in state `s`. -/
  | blocked (s : Sys)
  /-- The call returns `err`, in state `s`. -/
  | returned (err : Option String) (s : Sys)
deriving DecidableEq, Repr

/-- The session `&device{...}` that `Open` builds (lines 177-183): the
configured device, its name, and three fresh channels. -/
def newSession (s : Sys) (name : String) : device :=
  ⟨s.config.VideoCaptureDevice, name, s.next, s.next + 1, s.next + 2⟩

/-- The function `Open` of device.go up to its receive on `active.errq`
(lines 168-187). -/
def Open (env : Env) (s : Sys) : Outcome :=
  if s.config.VideoCaptureDevice = env.NoVideoCaptureDevice then
    .returned none s
  else if s.active.id ≠ env.NoVideoCaptureDevice then
    .returned none (s.emit (.notify .Debug
      ("Device: Ignorning call to open \"" ++ ActiveName s ++ "\" (active)")))
  else
    match Name env s.names s.config.VideoCaptureDevice with
    | none => .panic
    | some name =>
      let d := newSession s name
      .blocked (Sys.emit { s with
        active := d
        next := s.next + 3
        tasks := s.tasks ++ [⟨d, .starting⟩] } (.spawn d))

/-- The rest of `Open` (lines 187-193), once `err` has been received from `errq`. -/
def OpenReceived (env : Env) (err : Option String) (s : Sys) : Option String × Sys :=
  if err ≠ none then (err, reset env s) else (none, s)

/-- The method `(*device).capture` up to its startup report (lines 197-231): the
value sent on `errq` (`none` when `errq` is closed instead), the phase the task
is in afterwards, and the state.  The result `none` is the panic of `API`. -/
def capture (env : Env) (hw : Hardware) (d : device) (s : Sys) :
    Option (Option String × Phase × Sys) :=
  match API s.apis s.config.VideoCaptureAPI with
  | none => none
  | some a =>
    let api := APIName env a
    let s := s.emit (.notify .System
      ("Device: Opening \"" ++ d.name ++ "\" with API \"" ++ api ++ "\""))
    if !hw.opens then
      some (some (d.name ++ " does not support " ++ api ++ " encoding"), .failed false, s)
    else
      let s := s.emit (.acquire d)
      let s := s.emit (.notify .System
        ("Device: Applying dimensions (" ++ env.MainResolution.String ++ ")"))
      let capture := Rect 0 0 hw.width hw.height
      if !(capture.Eq env.MainResolution) then
        some (some (d.name ++ " has illegal dimensions " ++ env.MainResolution.String),
          .failed true, s)
      else
        let area := Rect 0 0 hw.width2 hw.height2
        if !(area.Eq env.MainResolution) then
          some (some (d.name ++ " has invalid dimensions " ++ area.String),
            .failed true, { s with mat := env.DeviceMat })
        else
          some (none, .looping,
            Sys.emit { s with closed := s.closed ++ [d.errq] } (.closeChan d.errq))

/-- One iteration of the run loop of `capture` (lines 233-240) in which
`d.running()` is true: `device.Read(&mat)` returns `ok` and leaves `f` in the
frame buffer. -/
def captureRead (d : device) (ok : Bool) (f : Mat) (s : Sys) : Phase × Sys :=
  let s := { s with mat := f }
  if !ok || s.mat.Empty then
    (.leaving, s.emit (.notify .Warn
      ("Device: Failed to capture from \"" ++ d.name ++ "\"")))
  else
    (.looping, s)

/-- The deferred calls of `capture`, last registered first: `device.Close()`
when a handle was opened (line 209), the closing message (line 202),
`close(d.closedq)` (line 197). -/
def captureDeferred (d : device) (handle : Bool) (s : Sys) : Sys :=
  let s := if handle then s.emit (.release d) else s
  let s := s.emit (.notify .System ("Device: Closing \"" ++ d.name ++ "\"..."))
  Sys.emit { s with closed := s.closed ++ [d.closedq] } (.closeChan d.closedq)

/-- The function `Close` of device.go up to the `select` of `active.stop()`
(lines 126-131 and 139-140). -/
def Close (env : Env) (s : Sys) : Outcome :=
  if s.active.id = env.NoVideoCaptureDevice then
    .returned none (s.emit (.notify .Debug
      ("Device: Ignorning call to close \"" ++ ActiveName s ++ "\" (inactive)")))
  else
    .blocked s

/-- The rest of `Close` (lines 133-135), once `active.stop()` has returned. -/
def CloseStopped (env : Env) (s : Sys) : Sys :=
  reset env (s.emit (.notify .Debug ("Device: Closed \"" ++ s.active.name ++ "\"...")))

/-! ## Source catalog (device.go, `sources` and the discovery goroutine of `init`) -/

/-- The loop of `sources` from slot `i` on, `fuel` bounding the iterations left. -/
def sourcesLoop (deviceName : Int → String) :
    Nat → Int → List Int → List String → List Int × List String
  | 0, _, s, n => (s, n)
  | fuel + 1, i, s, n =>
    if i < 10 then
      let name := deviceName i
      if name = "" then (s, n)
      else sourcesLoop deviceName fuel (i + 1) (s ++ [i]) (n ++ [name])
    else (s, n)

/-- The function `sources` of device.go, `deviceName` being
`win32.VideoCaptureDeviceName`. -/
def sources (deviceName : Int → String) : List Int × List String :=
  sourcesLoop deviceName 10 0 [] []

/-- The inner loop of the discovery pass (lines 66-72): is `got` among `names`. -/
def found (got : String) : List String → Bool
  | [] => false
  | known :: rest => if known = got then true else found got rest

/-- The catalog: the package variables `Sources` and `names`. -/
structure Catalog where
  Sources : List Int
  names : List String
deriving DecidableEq, Repr

/-- The outer loop of the discovery pass (lines 65-78) over the probed names
still to visit: the catalog afterwards and the notifications emitted. -/
def discoverLoop (s : List Int) (n : List String) :
    List String → Catalog → Catalog × List Event
  | [], cat => (cat, [])
  | got :: rest, cat =>
    if !(found got cat.names) then
      (⟨s, n⟩, [.notify .Debug ("Device: Discovered \"" ++ got ++ "\"")])
    else
      discoverLoop s n rest cat

/-- One discovery pass (lines 64-78) with probed lists `s` and `n`. -/
def discover (s : List Int) (n : List String) (cat : Catalog) : Catalog × List Event :=
  discoverLoop s n n cat

/-! ## Backend registry (device.go, the registry goroutine of `init`, and `APIs`) -/

/-- The initialiser of the package variable `apis` (lines 34-39): no names and an
empty map. -/
def registryStart : Registry := ⟨[], []⟩

/-- The loop of the registry goroutine (lines 46-55) from identifier `i` on,
`fuel` bounding the iterations left.  The map write `apis.values[api] = int(i)`
puts the pair in front, where `Registry.value` finds it first. -/
def registryLoop (env : Env) : Nat → Int → Registry → Registry
  | 0, _, r => r
  | fuel + 1, i, r =>
    if i < 5000 then
      let api := env.APIString i
      if api = "" then registryLoop env fuel (i + 1) r
      else
        let api := APIName env i
        registryLoop env fuel (i + 1) ⟨r.names ++ [api], (api, i) :: r.values⟩
    else r

/-- Go `sort.Strings`: the strings in ascending order. -/
def sortStrings (l : List String) : List String := l.insertionSort (· ≤ ·)

/-- The registry when the loop of the registry goroutine has run `k` rounds. -/
def registryAfter (env : Env) (k : Nat) : Registry := registryLoop env k 1 registryStart

/-- The registry when the loop has ended (line 55), all of 1..4999 probed. -/
def registryProbed (env : Env) : Registry := registryAfter env 4999

/-- The registry after `sort.Strings(apis.names)` (line 56). -/
def registrySorted (env : Env) : Registry :=
  ⟨sortStrings (registryProbed env).names, (registryProbed env).values⟩

/-- The registry when the goroutine has ended (line 59): the name of backend 0 put
in front. -/
def registryBuilt (env : Env) : Registry :=
  ⟨APIName env 0 :: (registrySorted env).names, (registrySorted env).values⟩

/-- The function `APIs` of device.go. -/
def APIs (apis : Registry) : List String := apis.names

/-- The names of all backends with an identifier in 1..4999 whose gocv name is
not empty, in the order of their identifiers. -/
def backendNames (env : Env) : List String :=
  (((List.range' 1 4999).map Int.ofNat).filter (fun i => env.APIString i ≠ "")).map
    (APIName env)

/-! ## The capture task as a whole (device.go, `(*device).capture`) -/

/-- The run loop of `capture` (lines 233-240) in program order: each element of
`reads` is what one `device.Read(&mat)` answers; the loop ends at the first read
that fails or leaves the frame buffer empty, and when the reads are used up
`d.running()` receives the stop signal and returns false. -/
def captureRounds (d : device) : List (Bool × Mat) → Sys → Sys
  | [], s => s
  | (ok, f) :: rest, s =>
    match captureRead d ok f s with
    | (.looping, s1) => captureRounds d rest s1
    | (_, s1) => s1

/-- The method `(*device).capture` from its first statement to its last deferred
call, in program order: the startup on hardware `hw`, the run loop over `reads`
when the startup succeeded, and the deferred calls.  The result `none` is the
panic of `API`. -/
def captureTask (env : Env) (hw : Hardware) (reads : List (Bool × Mat)) (d : device)
    (s : Sys) : Option Sys :=
  match capture env hw d s with
  | none => none
  | some (_, .failed handle, s1) => some (captureDeferred d handle s1)
  | some (_, _, s1) => some (captureDeferred d true (captureRounds d reads s1))

/-- The events `evs` of one capture task on session `d` acknowledge once: `closedq`
is closed exactly once, as the last event; when the device handle was opened it
is acquired, then released, and `closedq` is closed only after the release; when
no handle was opened none is acquired or released. -/
def AcknowledgedOnce (d : device) (opened : Bool) (evs : List Event) : Prop :=
  evs.count (.closeChan d.closedq) = 1 ∧
  evs.getLast? = some (.closeChan d.closedq) ∧
  (opened = true → ∃ pre post, evs = pre ++ Event.release d :: post ∧
    Event.acquire d ∈ pre ∧ Event.release d ∉ pre ∧ Event.closeChan d.closedq ∉ pre) ∧
  (opened = false → Event.acquire d ∉ evs ∧ Event.release d ∉ evs)

/-! ## The goroutines together -/

/-- One atomic move of a goroutine. -/
inductive Action where
  /-- The caller calls `Open()`. -/
  | callOpen
  /-- The caller calls `Close()`. -/
  | callClose
  /-- The caller (the rest of the program) writes `config.Current`. -/
  | configure (c : Config)
  /-- Task `k` runs `capture` up to its startup report, on hardware `hw`, and the
  caller blocked in `Open` receives the report. -/
  | startup (k : Nat) (hw : Hardware)
  /-- Task `k` runs one iteration of its loop with `running()` true, the read
  returning `ok` and the frame `f`. -/
  | frame (k : Nat) (ok : Bool) (f : Mat)
  /-- The send `d.closeq <- true` of `stop` meets the receive of `running()` in
  task `k`, which leaves its loop. -/
  | offer (k : Nat)
  /-- Task `k`, having returned, runs its deferred calls. -/
  | deferred (k : Nat)
  /-- The case `<-d.closedq` of `stop`. -/
  | acked
  /-- The case `<-t.C` of `stop`: the five second timer fires. -/
  | timeout
  /-- The discovery goroutine runs one pass, `deviceName` being what the slots
  answer. -/
  | discovery (deviceName : Int → String)

/-- The successor state of one move; `none` when the move is not possible in
`s` (the goroutine is not at that point, or the channel operation cannot
proceed) or when it panics. -/
def step (env : Env) (s : Sys) : Action → Option Sys
  -- Open(), lines 167-187: return at a guard, or spawn the task and wait on errq
  | .callOpen =>
    match s.caller with
    | .idle =>
      match Open env s with
      | .panic => none
      | .returned err s1 => some (s1.emit (.openReturned err))
      | .blocked s1 => some { s1 with caller := .opening s1.active }
    | _ => none
  -- Close(), lines 125-131: return at the guard, or enter the select of stop
  -- with a fresh five second timer
  | .callClose =>
    match s.caller with
    | .idle =>
      match Close env s with
      | .panic => none
      | .returned _ s1 => some (s1.emit .closeReturned)
      | .blocked s1 => some { s1 with caller := .stopping s1.active false }
    | _ => none
  | .configure c =>
    match s.caller with
    | .idle => some { s with config := c }
    | _ => none
  -- capture(), lines 197-231, meeting `err := <-active.errq` of Open, line 187;
  -- Open then runs lines 188-193
  | .startup k hw =>
    match s.caller, s.tasks[k]? with
    | .opening d, some ⟨dk, .starting⟩ =>
      if dk.errq = d.errq then
        match capture env hw dk s with
        | none => none
        | some (err, phase, s1) =>
          let s2 := { s1 with tasks := s1.tasks.set k ⟨dk, phase⟩ }
          let (ret, s3) := OpenReceived env err s2
          some (Sys.emit { s3 with caller := .idle } (.openReturned ret))
      else none
    | _, _ => none
  -- capture(), lines 233-240: running() takes its default case, then the read
  | .frame k ok f =>
    match s.tasks[k]? with
    | some ⟨dk, .looping⟩ =>
      let (phase, s1) := captureRead dk ok f s
      some { s1 with tasks := s1.tasks.set k ⟨dk, phase⟩ }
    | _ => none
  -- stop(), line 141, meeting running(), lines 244-246: the loop of capture ends,
  -- the loop of stop goes round
  | .offer k =>
    match s.caller, s.tasks[k]? with
    | .stopping d _, some ⟨dk, .looping⟩ =>
      if dk.closeq = d.closeq then
        some { s with tasks := s.tasks.set k ⟨dk, .leaving⟩ }
      else none
    | _, _ => none
  -- capture(), the deferred calls of lines 209, 202 and 197
  | .deferred k =>
    match s.tasks[k]? with
    | some ⟨dk, .failed handle⟩ =>
      let s1 := captureDeferred dk handle s
      some { s1 with tasks := s1.tasks.set k ⟨dk, .done⟩ }
    | some ⟨dk, .leaving⟩ =>
      let s1 := captureDeferred dk true s
      some { s1 with tasks := s1.tasks.set k ⟨dk, .done⟩ }
    | _ => none
  -- stop(), lines 142-146: with the timer value already received in line 147,
  -- t.Stop() is false and `<-t.C` blocks; otherwise stop returns and Close runs
  -- lines 133-135
  | .acked =>
    match s.caller with
    | .stopping d fired =>
      if d.closedq ∈ s.closed then
        if fired then some { s with caller := .draining d }
        else some (Sys.emit { CloseStopped env s with caller := .idle } .closeReturned)
      else none
    | _ => none
  -- stop(), lines 147-148: the timer fires once; the message, and round again
  | .timeout =>
    match s.caller with
    | .stopping d false =>
      some (Sys.emit { s with caller := .stopping d true }
        (.notify .Error ("Device: " ++ d.name ++ " failed to stop")))
    | _ => none
  -- init(), lines 64-78: one pass of the discovery goroutine
  | .discovery deviceName =>
    let (s0, n0) := sources deviceName
    let (cat, notes) := discover s0 n0 ⟨s.Sources, s.names⟩
    some { s with Sources := cat.Sources, names := cat.names, trace := s.trace ++ notes }

/-- The state after a sequence of moves, `none` when one of them is not possible. -/
def run (env : Env) (s : Sys) : List Action → Option Sys
  | [] => some s
  | a :: rest =>
    match step env s a with
    | none => none
    | some s1 => run env s1 rest

/-- The state once the package is initialised: the variable initialisers (the
catalog probed once, the frame buffer the placeholder) and `reset()`, with the
backend registry `apis` and the configured backend `api` as they are found. -/
def boot (env : Env) (deviceName : Int → String) (apis : Registry) (api : String) : Sys :=
  reset env
    { active := ⟨0, "", 0, 0, 0⟩
      config := ⟨"", 0, api⟩
      mat := env.DeviceMat
      Sources := (sources deviceName).1
      names := (sources deviceName).2
      apis := apis
      next := 0
      closed := []
      tasks := []
      caller := .idle
      trace := [] }

/-- The states the package can get into. -/
def Reachable (env : Env) (s : Sys) : Prop :=
  ∃ deviceName apis api acts, run env (boot env deviceName apis api) acts = some s

/-- The caller is in `stop` with the timer case already taken: in the `select`
with the timer drained, or in the receive `<-t.C` of line 144. -/
def Caller.hung : Caller → Bool
  | .stopping _ true => true
  | .draining _ => true
  | _ => false

/-- The moves the calling goroutine makes without the capture task taking part. -/
def Action.byCaller : Action → Bool
  | .callOpen => true
  | .callClose => true
  | .configure _ => true
  | .acked => true
  | .timeout => true
  | _ => false

/-- The task is before or in its run loop, or has left the loop and not yet run
its deferred calls: every phase but a failed startup and the end. -/
def Phase.live : Phase → Bool
  | .starting => true
  | .looping => true
  | .leaving => true
  | _ => false

/-- The invariant of the session state machine. -/
structure SessionInv (env : Env) (s : Sys) : Prop where
  /-- A live task is the task of the active session, and has not acknowledged. -/
  liveActive : ∀ (k : Nat) (t : Task), s.tasks[k]? = some t → t.phase.live = true →
    t.d = s.active ∧ t.d.closedq ∉ s.closed
  /-- There is at most one live task. -/
  liveUnique : ∀ (i j : Nat) (ti tj : Task), s.tasks[i]? = some ti → s.tasks[j]? = some tj →
    ti.phase.live = true → tj.phase.live = true → i = j
  /-- Tasks are started on sessions of a device, never on the sentinel. -/
  nonSentinel : ∀ (k : Nat) (t : Task), s.tasks[k]? = some t →
    t.d.id ≠ env.NoVideoCaptureDevice
  /-- The channels of a task were made in a row, before `next`. -/
  chans : ∀ (k : Nat) (t : Task), s.tasks[k]? = some t →
    t.d.closedq + 1 = t.d.errq ∧ t.d.errq < s.next
  /-- Closed channels were made before `next`. -/
  closedOld : ∀ (c : Nat), c ∈ s.closed → c < s.next
  /-- A task whose startup failed is not the task of the active session. -/
  failedOld : ∀ (k : Nat) (t : Task) (h : Bool), s.tasks[k]? = some t →
    t.phase = Phase.failed h → t.d.closedq ≠ s.active.closedq
  /-- The session being stopped is the active session. -/
  stopActive : ∀ (d : device) (fired : Bool), s.caller = Caller.stopping d fired →
    d = s.active

/-- At most one capture task is live, and it is the task of the active session. -/
def AtMostOneLive (s : Sys) : Prop :=
  ∀ (i j : Nat) (ti tj : Task), s.tasks[i]? = some ti → s.tasks[j]? = some tj →
    ti.phase.live = true → tj.phase.live = true → i = j ∧ ti.d = s.active

/-- Every move from `s` that replaces the active session is the reset of `Close`
after the acknowledgment `closedq` of the session was raised, or the new session
of `Open` on the sentinel session, or the reset of `Open` on receiving the
startup error of the session it has just created. -/
def ReplacementJustified (env : Env) (s : Sys) : Prop :=
  ∀ (a : Action) (s1 : Sys), step env s a = some s1 → s1.active ≠ s.active →
    (a = .acked ∧ s.active.closedq ∈ s.closed) ∨
    (a = .callOpen ∧ s.active.id = env.NoVideoCaptureDevice) ∨
    (∃ k hw err, a = .startup k hw ∧ s.caller = .opening s.active ∧
      s1.trace.getLast? = some (.openReturned (some err)))

/-! ## Concrete scenarios -/

/-- A concrete environment: a 1920 by 1080 main resolution, sentinel device -1,
an empty placeholder frame, and a region extractor that keeps the requested size. -/
def env0 : Env where
  MainResolution := Rect 0 0 1920 1080
  NoVideoCaptureDevice := -1
  MainDisplay := "Main Display"
  DeviceMat := ⟨0, 0, 0⟩
  Region := fun m r => ⟨r.Dy.toNat, r.Dx.toNat, m.frame⟩
  RGBA := fun m => (some ⟨Rect 0 0 m.cols m.rows⟩, none)
  APIString := fun i => if i = 0 then "video-capture-any" else ""
  ReplaceAll := fun s _ _ => s
  Title := fun s => s

/-- The environment `env0` on a platform with two more backends, 200 and 700. -/
def env1 : Env :=
  { env0 with
    APIString := fun i =>
      if i = 0 then "video-capture-any"
      else if i = 200 then "video-capture-vfw"
      else if i = 700 then "video-capture-dshow"
      else "" }

/-- A registry as it is once built on a platform with the default backend only. -/
def registry0 : Registry := ⟨["Any"], [("Any", 0)]⟩

/-- A platform with one capture device, CamA, in slot 0. -/
def deviceName0 : Int → String := fun i => if i = 0 then "CamA" else ""

/-- The initial state in `env0` with one device, the built registry and the
default backend configured. -/
def boot0 : Sys := boot env0 deviceName0 registry0 ""

/-- The configuration that selects device 0. -/
def config0 : Config := ⟨"Main Display", 0, ""⟩

/-- A device that opens and negotiates 1920 by 1080. -/
def hwGood : Hardware := ⟨true, 1920, 1080, 1920, 1080⟩

/-- A device that opens and negotiates 1280 by 720. -/
def hwSmall : Hardware := ⟨true, 1280, 720, 1280, 720⟩

/-- A device that does not open. -/
def hwClosed : Hardware := ⟨false, 0, 0, 0, 0⟩

/-- The state with device 0 selected and nothing opened yet. -/
def selected0 : Sys := { boot0 with config := config0 }

/-- The state in which `Open()` of device 0 waits for the startup report. -/
def opening0 : Sys :=
  (run env0 boot0 [.configure config0, .callOpen]).getD boot0

/-- The state after an `Open()` of device 0 that failed: the device did not open. -/
def failed0 : Sys :=
  (run env0 opening0 [.startup 0 hwClosed]).getD boot0

/-- The state after a successful `Open()` of device 0. -/
def opened0 : Sys :=
  (run env0 boot0 [.configure config0, .callOpen, .startup 0 hwGood]).getD boot0

/-- The state in which `Close()` on the session of `opened0`, which has captured
one frame, has offered the stop signal and the task has acknowledged. -/
def acked0 : Sys :=
  (run env0 opened0 [.frame 0 true ⟨1080, 1920, 7⟩, .callClose, .offer 0, .deferred 0]).getD boot0

/-- The state after the acknowledged `Close()` of the session of `opened0`. -/
def closed0 : Sys :=
  (run env0 acked0 [.acked]).getD boot0

/-- The text `part` occurs in `text`. -/
def Contains (text part : String) : Prop := ∃ a b, text = a ++ part ++ b

/-- What an extracted image has to be for rectangle `R`: no error, and an image
of the width and height of `R`. -/
def SizedLike (res : Option RGBAImage × Option String) (R : Rectangle) : Prop :=
  ∃ img, res = (some img, none) ∧ img.Rect.Dx = R.Dx ∧ img.Rect.Dy = R.Dy


/-! ## Region extractor: theorems -/

/-- C1, as stated, is false: with an empty frame buffer (no rows, no columns)
the empty rectangle (0,0)-(0,0) is contained in the main resolution and in the
buffer bounds, the library calls would keep its size, yet `CaptureRect` returns
no image at all: (nil, nil). -/
theorem captureRect_contained_counterexample :
    Rectangle.In ⟨⟨0, 0⟩, ⟨0, 0⟩⟩ env0.MainResolution = true ∧
    Rectangle.In ⟨⟨0, 0⟩, ⟨0, 0⟩⟩ (Mat.Bounds ⟨0, 0, 0⟩) = true ∧
    SizedLike (env0.RGBA (env0.Region ⟨0, 0, 0⟩ ⟨⟨0, 0⟩, ⟨0, 0⟩⟩)) ⟨⟨0, 0⟩, ⟨0, 0⟩⟩ ∧
    CaptureRect env0 ⟨0, 0, 0⟩ ⟨⟨0, 0⟩, ⟨0, 0⟩⟩ = (none, none) ∧
    ¬ SizedLike (CaptureRect env0 ⟨0, 0, 0⟩ ⟨⟨0, 0⟩, ⟨0, 0⟩⟩) ⟨⟨0, 0⟩, ⟨0, 0⟩⟩ := by
  refine ⟨by decide, by decide, ⟨_, rfl, by decide, by decide⟩, rfl, ?_⟩
  rintro ⟨img, himg, -⟩
  have hnil : CaptureRect env0 ⟨0, 0, 0⟩ ⟨⟨0, 0⟩, ⟨0, 0⟩⟩ = (none, none) := rfl
  rw [hnil] at himg
  cases himg

/-- C1, amended: for a frame buffer that is not empty, every rectangle R
contained in the main resolution and in the buffer bounds (0,0,cols,rows) makes
`CaptureRect(R)` return no error and an image of the width and height of R
(`mat.Region` and `img.RGBA` taken as returning the region unchanged in size). -/
theorem captureRect_contained (env : Env) (mat : Mat) (R : Rectangle)
    (hmat : mat.Empty = false)
    (hlib : SizedLike (env.RGBA (env.Region mat R)) R)
    (hmain : R.In env.MainResolution = true) (hbuf : R.In mat.Bounds = true) :
    SizedLike (CaptureRect env mat R) R := by
  have hb : R.In (Rect 0 0 mat.cols mat.rows) = true := hbuf
  simpa [CaptureRect, Mat.Size, hmat, hmain, hb] using hlib

/-- Witness of C1 amended: a 1920 by 1080 frame and the rectangle (10,10)-(100,50). -/
theorem captureRect_contained_witness :
    (⟨1080, 1920, 0⟩ : Mat).Empty = false ∧
    SizedLike (CaptureRect env0 ⟨1080, 1920, 0⟩ ⟨⟨10, 10⟩, ⟨100, 50⟩⟩) ⟨⟨10, 10⟩, ⟨100, 50⟩⟩ :=
  ⟨by decide, captureRect_contained env0 ⟨1080, 1920, 0⟩ ⟨⟨10, 10⟩, ⟨100, 50⟩⟩ (by decide)
    ⟨_, rfl, by decide, by decide⟩ (by decide) (by decide)⟩

/-- C2, as stated, is false: with an empty frame buffer the rectangle
(0,0)-(2000,2000), which is not contained in the 1920 by 1080 main resolution,
gets (nil, nil): no error. -/
theorem captureRect_outside_counterexample :
    Rectangle.In ⟨⟨0, 0⟩, ⟨2000, 2000⟩⟩ env0.MainResolution = false ∧
    CaptureRect env0 ⟨0, 0, 0⟩ ⟨⟨0, 0⟩, ⟨2000, 2000⟩⟩ = (none, none) :=
  ⟨by decide, rfl⟩

/-- C2, amended: for a frame buffer that is not empty, every rectangle R not
contained in the main resolution makes `CaptureRect(R)` return a nil image and a
bounds error whose text contains both R and the main resolution. -/
theorem captureRect_outside (env : Env) (mat : Mat) (R : Rectangle)
    (hmat : mat.Empty = false) (hout : R.In env.MainResolution = false) :
    ∃ e, CaptureRect env mat R = (none, some e) ∧
      Contains e R.String ∧ Contains e env.MainResolution.String := by
  refine ⟨"illegal boundaries " ++ R.String ++ " intersects " ++ env.MainResolution.String,
    ?_, ?_, ?_⟩
  · simp [CaptureRect, hmat, hout]
  · exact ⟨"illegal boundaries ", " intersects " ++ env.MainResolution.String, by
      simp [String.append_assoc]⟩
  · exact ⟨"illegal boundaries " ++ R.String ++ " intersects ", "", by simp⟩

/-- Witness of C2 amended: a 1920 by 1080 frame and the rectangle (0,0)-(2000,2000). -/
theorem captureRect_outside_witness :
    (⟨1080, 1920, 0⟩ : Mat).Empty = false ∧
    Rectangle.In ⟨⟨0, 0⟩, ⟨2000, 2000⟩⟩ env0.MainResolution = false ∧
    ∃ e, CaptureRect env0 ⟨1080, 1920, 0⟩ ⟨⟨0, 0⟩, ⟨2000, 2000⟩⟩ = (none, some e) ∧
      Contains e (Rectangle.String ⟨⟨0, 0⟩, ⟨2000, 2000⟩⟩) ∧
      Contains e env0.MainResolution.String :=
  ⟨by decide, by decide,
    captureRect_outside env0 ⟨1080, 1920, 0⟩ ⟨⟨0, 0⟩, ⟨2000, 2000⟩⟩ (by decide) (by decide)⟩

/-- The guard of line 107: an empty frame buffer gives (nil, nil). -/
theorem CaptureRect_of_empty (env : Env) (mat : Mat) (R : Rectangle)
    (hmat : mat.Empty = true) : CaptureRect env mat R = (none, none) := by
  simp [CaptureRect, hmat]

/-- C3: whenever the frame buffer is empty, `CaptureRect(R)` returns (nil, nil)
for every rectangle R, and so does `Capture()`. -/
theorem capture_empty_buffer (env : Env) (mat : Mat) (hmat : mat.Empty = true) :
    (∀ R, CaptureRect env mat R = (none, none)) ∧ Capture env mat = (none, none) :=
  ⟨fun R => CaptureRect_of_empty env mat R hmat,
    CaptureRect_of_empty env mat env.MainResolution hmat⟩

/-- Witness of C3: the frame buffer with no rows and no columns. -/
theorem capture_empty_buffer_witness :
    (⟨0, 0, 0⟩ : Mat).Empty = true ∧
    (∀ R, CaptureRect env0 ⟨0, 0, 0⟩ R = (none, none)) ∧
    Capture env0 ⟨0, 0, 0⟩ = (none, none) :=
  ⟨by decide, capture_empty_buffer env0 ⟨0, 0, 0⟩ (by decide)⟩

/-! ## Session state machine: theorems -/

/-- The device name `Open` resolves: defined for every slot index. -/
theorem Name_isSome (env : Env) (names : List String) (d : Int) (h0 : 0 ≤ d) :
    ∃ name, Name env names d = some name := by
  unfold Name
  by_cases h1 : d = env.NoVideoCaptureDevice
  · exact ⟨_, if_pos h1⟩
  · by_cases h2 : (names.length : Int) > d
    · have hlt : d.toNat < names.length := by omega
      refine ⟨names[d.toNat], ?_⟩
      simp [h1, h2, h0, List.getElem?_eq_getElem hlt]
    · exact ⟨"Device: " ++ Itoa d, by simp [h1, h2]⟩

/-- The move `callOpen` past both guards of `Open`: a new session on fresh channels,
its capture task spawned, the caller blocked on `errq`. -/
theorem step_callOpen_new (env : Env) (s : Sys) (name : String)
    (hc : s.caller = .idle)
    (hcfg : s.config.VideoCaptureDevice ≠ env.NoVideoCaptureDevice)
    (hact : s.active.id = env.NoVideoCaptureDevice)
    (hname : Name env s.names s.config.VideoCaptureDevice = some name) :
    step env s .callOpen = some
      { s with
        active := newSession s name
        next := s.next + 3
        tasks := s.tasks ++ [⟨newSession s name, .starting⟩]
        trace := s.trace ++ [.spawn (newSession s name)]
        caller := .opening (newSession s name) } := by
  simp [step, hc, Open, hcfg, hact, hname, Sys.emit]

/-- C4: with a non-sentinel session active and a configured device that is not the
sentinel, `Open()` returns nil, leaves the active session (id, name, channels)
and everything but the trace unchanged, and spawns no capture task: the only
events are the debug message and the return, whatever device is configured. -/
theorem open_while_active (env : Env) (s : Sys) (hc : s.caller = .idle)
    (hact : s.active.id ≠ env.NoVideoCaptureDevice)
    (hcfg : s.config.VideoCaptureDevice ≠ env.NoVideoCaptureDevice) :
    ∃ s1, step env s .callOpen = some s1 ∧
      s1.trace = s.trace ++
        [.notify .Debug ("Device: Ignorning call to open \"" ++ s.active.name ++ "\" (active)"),
         .openReturned none] ∧
      s1.caller = .idle ∧ s1.active = s.active ∧ s1.tasks = s.tasks ∧
      s1.config = s.config ∧ s1.mat = s.mat ∧ s1.closed = s.closed ∧ s1.next = s.next := by
  simp [step, hc, Open, hcfg, hact, Sys.emit, ActiveName]

/-- C9: on the sentinel session `Close()` returns without entering `stop` (no stop
signal is offered, the caller is idle again at once) and leaves the active
session, the configuration and the frame buffer unchanged. -/
theorem close_on_sentinel (env : Env) (s : Sys) (hc : s.caller = .idle)
    (hact : s.active.id = env.NoVideoCaptureDevice) :
    ∃ s1, step env s .callClose = some s1 ∧
      s1.trace = s.trace ++
        [.notify .Debug ("Device: Ignorning call to close \"" ++ s.active.name ++ "\" (inactive)"),
         .closeReturned] ∧
      s1.caller = .idle ∧ s1.active = s.active ∧ s1.config = s.config ∧ s1.mat = s.mat ∧
      s1.tasks = s.tasks ∧ s1.closed = s.closed ∧ s1.next = s.next := by
  simp [step, hc, Close, hact, Sys.emit, ActiveName]

/-- Against a non-empty rectangle `Rectangle.Eq` is plain equality. -/
theorem Eq_false_of_ne (r s : Rectangle) (hs : s.Empty = false) (h : r ≠ s) :
    r.Eq s = false := by
  simp [Rectangle.Eq, h, hs]


/-- A run whose first move succeeds continues from the successor state. -/
theorem run_cons (env : Env) (s s1 : Sys) (a : Action) (rest : List Action)
    (h : step env s a = some s1) : run env s (a :: rest) = run env s1 rest := by
  simp [run, h]

/-- The move `startup`: the task runs `capture` to its report and `Open` resumes with it. -/
theorem step_startup (env : Env) (s s1 : Sys) (k : Nat) (hw : Hardware) (d dk : device)
    (err : Option String) (phase : Phase)
    (hc : s.caller = .opening d) (hk : s.tasks[k]? = some ⟨dk, .starting⟩)
    (he : dk.errq = d.errq) (hcap : capture env hw dk s = some (err, phase, s1)) :
    step env s (.startup k hw) = some (Sys.emit
      { (OpenReceived env err { s1 with tasks := s1.tasks.set k ⟨dk, phase⟩ }).2 with
        caller := .idle }
      (.openReturned (OpenReceived env err { s1 with tasks := s1.tasks.set k ⟨dk, phase⟩ }).1)) := by
  simp [step, hc, hk, he, hcap]

/-- The startup of `capture` on a device that opens and reads back other
dimensions than the main resolution (lines 219-222). -/
theorem capture_illegal_dimensions (env : Env) (hw : Hardware) (d : device) (s : Sys) (a : Int)
    (hapi : API s.apis s.config.VideoCaptureAPI = some a) (hopen : hw.opens = true)
    (hdim : (Rect 0 0 hw.width hw.height).Eq env.MainResolution = false) :
    capture env hw d s = some
      (some (d.name ++ " has illegal dimensions " ++ env.MainResolution.String), .failed true,
        ((s.emit (.notify .System
          ("Device: Opening \"" ++ d.name ++ "\" with API \"" ++ APIName env a ++ "\""))).emit
          (.acquire d)).emit (.notify .System
            ("Device: Applying dimensions (" ++ env.MainResolution.String ++ ")"))) := by
  simp [capture, hapi, hopen, hdim]

/-- C6: on the sentinel session, with a device slot configured, if the opened
device negotiates a rectangle different from the (non-empty) main resolution,
`Open()` returns the dimension-mismatch error of line 220 and `IsActive()` is
false afterwards. -/
theorem open_dimension_mismatch (env : Env) (s : Sys) (hw : Hardware)
    (hc : s.caller = .idle)
    (hact : s.active.id = env.NoVideoCaptureDevice)
    (hcfg : s.config.VideoCaptureDevice ≠ env.NoVideoCaptureDevice)
    (hslot : 0 ≤ s.config.VideoCaptureDevice)
    (hapi : API s.apis s.config.VideoCaptureAPI ≠ none)
    (hopen : hw.opens = true)
    (hmain : env.MainResolution.Empty = false)
    (hdim : Rect 0 0 hw.width hw.height ≠ env.MainResolution) :
    ∃ s2 name, Name env s.names s.config.VideoCaptureDevice = some name ∧
      run env s [.callOpen, .startup s.tasks.length hw] = some s2 ∧
      s2.caller = .idle ∧
      s2.trace.getLast? = some (.openReturned
        (some (name ++ " has illegal dimensions " ++ env.MainResolution.String))) ∧
      IsActive env s2 = false := by
  obtain ⟨name, hname⟩ := Name_isSome env s.names _ hslot
  obtain ⟨a, ha⟩ := Option.ne_none_iff_exists'.mp hapi
  have hEq := Eq_false_of_ne _ _ hmain hdim
  have h1 := step_callOpen_new env s name hc hcfg hact hname
  have h2 := step_startup env
    { s with
      active := newSession s name
      next := s.next + 3
      tasks := s.tasks ++ [⟨newSession s name, .starting⟩]
      trace := s.trace ++ [.spawn (newSession s name)]
      caller := .opening (newSession s name) }
    _ s.tasks.length hw (newSession s name) (newSession s name)
    _ _ rfl (by simp) rfl
    (capture_illegal_dimensions env hw (newSession s name) _ a ha hopen hEq)
  have hrun := (run_cons env s _ _ [.startup s.tasks.length hw] h1).trans
    ((run_cons env _ _ _ [] h2).trans rfl)
  exact ⟨_, name, hname, hrun, rfl, by simp [OpenReceived, Sys.emit, newSession],
    by simp [OpenReceived, Sys.emit, IsActive, reset]⟩

/-- Witness of C4: a second `Open()` on the opened session of device 0. -/
theorem open_while_active_witness :
    opened0.caller = .idle ∧ opened0.active.id ≠ env0.NoVideoCaptureDevice ∧
    opened0.config.VideoCaptureDevice ≠ env0.NoVideoCaptureDevice ∧
    ∃ s1, step env0 opened0 .callOpen = some s1 ∧
      s1.trace = opened0.trace ++
        [.notify .Debug
          ("Device: Ignorning call to open \"" ++ opened0.active.name ++ "\" (active)"),
         .openReturned none] ∧
      s1.caller = .idle ∧ s1.active = opened0.active ∧ s1.tasks = opened0.tasks ∧
      s1.config = opened0.config ∧ s1.mat = opened0.mat ∧ s1.closed = opened0.closed ∧
      s1.next = opened0.next :=
  ⟨by decide, by decide, by decide,
    open_while_active env0 opened0 (by decide) (by decide) (by decide)⟩

/-- Witness of C9: `Close()` in the initial state. -/
theorem close_on_sentinel_witness :
    boot0.caller = .idle ∧ boot0.active.id = env0.NoVideoCaptureDevice ∧
    ∃ s1, step env0 boot0 .callClose = some s1 ∧
      s1.trace = boot0.trace ++
        [.notify .Debug
          ("Device: Ignorning call to close \"" ++ boot0.active.name ++ "\" (inactive)"),
         .closeReturned] ∧
      s1.caller = .idle ∧ s1.active = boot0.active ∧ s1.config = boot0.config ∧
      s1.mat = boot0.mat ∧ s1.tasks = boot0.tasks ∧ s1.closed = boot0.closed ∧
      s1.next = boot0.next :=
  ⟨by decide, by decide, close_on_sentinel env0 boot0 (by decide) (by decide)⟩

/-- Witness of C6: device 0 negotiates 1280 by 720 against 1920 by 1080. -/
theorem open_dimension_mismatch_witness :
    selected0.caller = .idle ∧ selected0.active.id = env0.NoVideoCaptureDevice ∧
    selected0.config.VideoCaptureDevice ≠ env0.NoVideoCaptureDevice ∧
    0 ≤ selected0.config.VideoCaptureDevice ∧
    API selected0.apis selected0.config.VideoCaptureAPI ≠ none ∧
    hwSmall.opens = true ∧ env0.MainResolution.Empty = false ∧
    Rect 0 0 hwSmall.width hwSmall.height ≠ env0.MainResolution ∧
    ∃ s2 name, Name env0 selected0.names selected0.config.VideoCaptureDevice = some name ∧
      run env0 selected0 [.callOpen, .startup selected0.tasks.length hwSmall] = some s2 ∧
      s2.caller = .idle ∧
      s2.trace.getLast? = some (.openReturned
        (some (name ++ " has illegal dimensions " ++ env0.MainResolution.String))) ∧
      IsActive env0 s2 = false :=
  ⟨by decide, by decide, by decide, by decide, by decide, by decide, by decide, by decide,
    open_dimension_mismatch env0 selected0 hwSmall (by decide) (by decide) (by decide)
      (by decide) (by decide) (by decide) (by decide) (by decide)⟩

/-- Once the timer case of `stop` has been taken, no move brings the caller out of
`stop`. -/
theorem step_hung (env : Env) (s s1 : Sys) (a : Action)
    (h : step env s a = some s1) (hh : s.caller.hung = true) : s1.caller.hung = true := by
  cases a with
  | callOpen => cases hc : s.caller <;> simp [step, hc, Caller.hung] at h hh
  | callClose => cases hc : s.caller <;> simp [step, hc, Caller.hung] at h hh
  | configure c => cases hc : s.caller <;> simp [step, hc, Caller.hung] at h hh
  | startup k hw =>
    cases hc : s.caller <;> simp [step, hc, Caller.hung] at h hh
  | frame k ok f =>
    simp only [step] at h
    split at h
    · simp only [captureRead] at h
      split at h <;> (simp at h; subst h; simpa [Sys.emit] using hh)
    · simp at h
  | offer k =>
    simp only [step] at h
    split at h
    · split at h
      · simp at h; subst h; simpa using hh
      · simp at h
    · simp at h
  | deferred k =>
    simp only [step] at h
    split at h
    · simp at h; subst h
      simp only [captureDeferred, Sys.emit]
      split <;> simpa using hh
    · simp at h; subst h
      simpa [captureDeferred, Sys.emit] using hh
    · simp at h
  | acked =>
    cases hc : s.caller with
    | idle => simp [step, hc] at h
    | opening d => simp [step, hc] at h
    | draining d => simp [step, hc] at h
    | stopping d fired =>
      cases fired with
      | false => simp [hc, Caller.hung] at hh
      | true =>
        simp only [step, hc] at h
        split at h
        · simp at h; subst h; rfl
        · simp at h
  | timeout =>
    cases hc : s.caller with
    | idle => simp [step, hc] at h
    | opening d => simp [step, hc] at h
    | draining d => simp [step, hc] at h
    | stopping d fired =>
      cases fired with
      | false => simp [hc, Caller.hung] at hh
      | true => simp [step, hc] at h
  | discovery deviceName =>
    simp only [step] at h
    simp at h; subst h; simpa using hh

/-- Once the timer case of `stop` has been taken, no sequence of moves brings the
caller out of `stop`. -/
theorem run_hung (env : Env) (acts : List Action) (s s1 : Sys)
    (h : run env s acts = some s1) (hh : s.caller.hung = true) : s1.caller.hung = true := by
  induction acts generalizing s with
  | nil => simp [run] at h; subst h; exact hh
  | cons a rest ih =>
    simp only [run] at h
    split at h
    · simp at h
    · next s2 hs => exact ih s2 h (step_hung env s s2 a hs hh)

/-- C7 fails on the code: `Close()` on the active session of device 0 whose task
takes no step (it is blocked in a read). The timer case fires and logs "failed
to stop", then the caller is back in the `select` with the timer drained: none
of its moves is possible, and whatever the task does later, also if it
acknowledges, the caller never leaves `stop`, so `Close()` never returns. -/
theorem close_times_out_and_hangs :
    ∃ s, run env0 boot0 [.configure config0, .callOpen, .startup 0 hwGood] = some opened0 ∧
      run env0 opened0 [.callClose, .timeout] = some s ∧
      IsActive env0 opened0 = true ∧
      s.caller = .stopping opened0.active true ∧
      s.trace.getLast? = some (.notify .Error "Device: CamA failed to stop") ∧
      (∀ a, a.byCaller = true → step env0 s a = none) ∧
      (∀ acts s1, run env0 s acts = some s1 → s1.caller ≠ .idle) := by
  refine ⟨_, by decide, rfl, by decide, by decide, by decide, ?_, ?_⟩
  · intro a ha
    cases a <;> first | rfl | simp [Action.byCaller] at ha
  · intro acts s1 hrun hidle
    have := run_hung env0 acts _ s1 hrun (by decide)
    rw [hidle] at this
    exact absurd this (by decide)

/-- C5, as stated, is false: device 0 is opened, one 1920 by 1080 frame is
captured, `Close()` offers the stop signal, the task acknowledges and `Close()`
returns; `IsActive()` is false, but `Capture()` still serves the last frame
instead of (nil, nil): `Close` and `reset` do not touch the frame buffer. -/
theorem close_acked_counterexample :
    ∃ s1, Reachable env0 acked0 ∧ acked0.caller = .stopping acked0.active false ∧
      acked0.active.closedq ∈ acked0.closed ∧
      step env0 acked0 .acked = some s1 ∧ s1.caller = .idle ∧
      IsActive env0 s1 = false ∧
      Capture env0 s1.mat = (some ⟨Rect 0 0 1920 1080⟩, none) := by
  refine ⟨_, ?_, by decide, by decide, rfl, by decide, by decide, by decide⟩
  exact ⟨deviceName0, registry0, "",
    [.configure config0, .callOpen, .startup 0 hwGood, .frame 0 true ⟨1080, 1920, 7⟩,
      .callClose, .offer 0, .deferred 0], by decide⟩

/-- C5, amended: when the caller in `stop` receives the acknowledgment (closedq
closed) before the timer case has been taken, `Close()` returns, `IsActive()` is
false afterwards, the frame buffer is the one the capture task left, and
`Capture()` returns (nil, nil) when that buffer is empty. -/
theorem close_acked (env : Env) (s : Sys) (d : device)
    (hc : s.caller = .stopping d false) (hack : d.closedq ∈ s.closed) :
    ∃ s1, step env s .acked = some s1 ∧ s1.caller = .idle ∧
      s1.trace.getLast? = some .closeReturned ∧
      IsActive env s1 = false ∧ s1.mat = s.mat ∧
      (s.mat.Empty = true → Capture env s1.mat = (none, none)) := by
  have hstep : step env s .acked =
      some (Sys.emit { CloseStopped env s with caller := .idle } .closeReturned) := by
    simp [step, hc, hack]
  refine ⟨_, hstep, rfl, by simp [Sys.emit], ?_, rfl, ?_⟩
  · simp [IsActive, Sys.emit, CloseStopped, reset]
  · intro he
    exact CaptureRect_of_empty env s.mat env.MainResolution he

/-- Witness of C5 amended: the acknowledged `Close()` of the session of device 0. -/
theorem close_acked_witness :
    acked0.caller = .stopping acked0.active false ∧
    acked0.active.closedq ∈ acked0.closed ∧
    ∃ s1, step env0 acked0 .acked = some s1 ∧ s1.caller = .idle ∧
      s1.trace.getLast? = some .closeReturned ∧
      IsActive env0 s1 = false ∧ s1.mat = acked0.mat ∧
      (acked0.mat.Empty = true → Capture env0 s1.mat = (none, none)) :=
  ⟨by decide, by decide, close_acked env0 acked0 acked0.active (by decide) (by decide)⟩

/-! ## Discovery pass: theorems -/

/-- The inner loop of the discovery pass is list membership. -/
theorem found_iff (got : String) (names : List String) :
    found got names = true ↔ got ∈ names := by
  induction names with
  | nil => simp [found]
  | cons known rest ih =>
    by_cases h : known = got
    · simp [found, h]
    · have h2 : ¬ got = known := fun e => h e.symm
      simp [found, h, h2, ih]

/-- The discovery loop over names that are all known changes nothing. -/
theorem discoverLoop_all_known (s : List Int) (n rest : List String) (cat : Catalog)
    (h : ∀ g ∈ rest, g ∈ cat.names) : discoverLoop s n rest cat = (cat, []) := by
  induction rest with
  | nil => rfl
  | cons got rest ih =>
    have hg : found got cat.names = true := (found_iff _ _).2 (h got (by simp))
    simp only [discoverLoop, hg]
    exact ih (fun g hgm => h g (by simp [hgm]))

/-- The discovery loop stops at the first unknown name, replaces the catalog and
notifies once. -/
theorem discoverLoop_some_new (s : List Int) (n rest : List String) (cat : Catalog)
    (h : ∃ g ∈ rest, g ∉ cat.names) :
    ∃ pre got post, rest = pre ++ got :: post ∧ (∀ g ∈ pre, g ∈ cat.names) ∧
      got ∉ cat.names ∧
      discoverLoop s n rest cat =
        (⟨s, n⟩, [.notify .Debug ("Device: Discovered \"" ++ got ++ "\"")]) := by
  induction rest with
  | nil => simp at h
  | cons got rest ih =>
    by_cases hg : got ∈ cat.names
    · have hrest : ∃ g ∈ rest, g ∉ cat.names := by
        obtain ⟨g, hgm, hgn⟩ := h
        rcases List.mem_cons.mp hgm with rfl | hm
        · exact absurd hg hgn
        · exact ⟨g, hm, hgn⟩
      obtain ⟨pre, got1, post, e, hpre, hnew, hres⟩ := ih hrest
      refine ⟨got :: pre, got1, post, by simp [e], ?_, hnew, ?_⟩
      · intro g hgm
        rcases List.mem_cons.mp hgm with rfl | hm
        · exact hg
        · exact hpre g hm
      · have hf : found got cat.names = true := (found_iff _ _).2 hg
        simp only [discoverLoop, hf]
        exact hres
    · refine ⟨[], got, rest, rfl, by simp, hg, ?_⟩
      have hf : found got cat.names = false := by
        cases hfv : found got cat.names with
        | false => rfl
        | true => exact absurd ((found_iff _ _).1 hfv) hg
      simp [discoverLoop, hf]

/-- C8: one discovery pass with catalog `cat` and probed lists (s, n): if some
name of n is not in the old names, the catalog becomes exactly (s, n) and exactly
one notification is emitted, for the first such name; if every name of n is in
the old names, the catalog is unchanged and nothing is emitted. -/
theorem discovery_pass (s : List Int) (n : List String) (cat : Catalog) :
    ((∃ g ∈ n, g ∉ cat.names) →
      ∃ pre got post, n = pre ++ got :: post ∧ (∀ g ∈ pre, g ∈ cat.names) ∧
        got ∉ cat.names ∧
        discover s n cat =
          (⟨s, n⟩, [.notify .Debug ("Device: Discovered \"" ++ got ++ "\"")])) ∧
    ((∀ g ∈ n, g ∈ cat.names) → discover s n cat = (cat, [])) :=
  ⟨discoverLoop_some_new s n n cat, discoverLoop_all_known s n n cat⟩

/-- Witness of C8: old names CamA; the probe CamA, CamB replaces the catalog and
notifies once for CamB; the probe CamA does nothing. -/
theorem discovery_pass_witness :
    ((∃ g ∈ ["CamA", "CamB"], g ∉ (⟨[0], ["CamA"]⟩ : Catalog).names) ∧
      ∃ pre got post, ["CamA", "CamB"] = pre ++ got :: post ∧
        (∀ g ∈ pre, g ∈ (⟨[0], ["CamA"]⟩ : Catalog).names) ∧
        got ∉ (⟨[0], ["CamA"]⟩ : Catalog).names ∧
        discover [0, 1] ["CamA", "CamB"] ⟨[0], ["CamA"]⟩ =
          (⟨[0, 1], ["CamA", "CamB"]⟩,
            [.notify .Debug ("Device: Discovered \"" ++ got ++ "\"")])) ∧
    ((∀ g ∈ ["CamA"], g ∈ (⟨[0], ["CamA"]⟩ : Catalog).names) ∧
      discover [0] ["CamA"] ⟨[0], ["CamA"]⟩ = (⟨[0], ["CamA"]⟩, [])) ∧
    discover [0, 1] ["CamA", "CamB"] ⟨[0], ["CamA"]⟩ =
      (⟨[0, 1], ["CamA", "CamB"]⟩, [.notify .Debug "Device: Discovered \"CamB\""]) :=
  ⟨⟨⟨"CamB", by simp, by simp⟩,
      (discovery_pass [0, 1] ["CamA", "CamB"] ⟨[0], ["CamA"]⟩).1 ⟨"CamB", by simp, by simp⟩⟩,
    ⟨by simp, (discovery_pass [0] ["CamA"] ⟨[0], ["CamA"]⟩).2 (by simp)⟩,
    by decide⟩

/-! ## Session invariant: theorems -/

/-- Reading a task list after one entry was replaced. -/
theorem task_set_cases {l : List Task} {k j : Nat} {a u : Task}
    (h : (l.set k a)[j]? = some u) : (j = k ∧ u = a) ∨ (j ≠ k ∧ l[j]? = some u) := by
  rw [List.getElem?_set] at h
  split at h
  · next e =>
    split at h
    · left; exact ⟨e.symm, by simpa using h.symm⟩
    · simp at h
  · next e => right; exact ⟨fun x => e x.symm, h⟩

/-- Reading a task list after one entry was appended. -/
theorem task_concat_cases {l : List Task} {j : Nat} {a u : Task}
    (h : (l ++ [a])[j]? = some u) : l[j]? = some u ∨ (j = l.length ∧ u = a) := by
  rw [List.getElem?_append] at h
  split at h
  · left; exact h
  · next hlt =>
    right
    cases hj : j - l.length with
    | zero => rw [hj] at h; simp at h; exact ⟨by omega, h.symm⟩
    | succ m => rw [hj] at h; simp at h

/-- A live task moving to another live phase keeps the invariant; the closed
channels may grow by the `errq` of that task. -/
theorem SessionInv_rephase (env : Env) (s s1 : Sys) (k : Nat) (dk : device) (p p1 : Phase)
    (hI : SessionInv env s) (hk : s.tasks[k]? = some ⟨dk, p⟩) (hp : p.live = true)
    (hp1 : p1.live = true)
    (ht : s1.tasks = s.tasks.set k ⟨dk, p1⟩) (ha : s1.active = s.active)
    (hcl : s1.closed = s.closed ∨ s1.closed = s.closed ++ [dk.errq])
    (hn : s1.next = s.next)
    (hc : ∀ d fired, s1.caller = .stopping d fired → s.caller = .stopping d fired) :
    SessionInv env s1 := by
  have hmem : ∀ c, c ∈ s1.closed → c ∈ s.closed ∨ c = dk.errq := by
    intro c hcm
    rcases hcl with e | e
    · rw [e] at hcm; exact Or.inl hcm
    · rw [e] at hcm; simpa using hcm
  have hkch := hI.chans k _ hk
  constructor
  · intro j t hj hl
    rw [ht] at hj
    rcases task_set_cases hj with ⟨rfl, rfl⟩ | ⟨hne, hj0⟩
    · have h0 := hI.liveActive j _ hk hp
      refine ⟨by rw [ha]; exact h0.1, fun hcm => ?_⟩
      rcases hmem _ hcm with h1 | h1
      · exact h0.2 h1
      · have e1 : dk.closedq + 1 = dk.errq := hkch.1
        have e2 : dk.closedq = dk.errq := h1
        omega
    · exact absurd (hI.liveUnique j k t _ hj0 hk hl hp) hne
  · intro i j ti tj hi hj hli hlj
    rw [ht] at hi hj
    rcases task_set_cases hi with ⟨rfl, rfl⟩ | ⟨hne, hi0⟩
    · rcases task_set_cases hj with ⟨rfl, rfl⟩ | ⟨hne2, hj0⟩
      · rfl
      · exact absurd (hI.liveUnique j i tj _ hj0 hk hlj hp) hne2
    · exact absurd (hI.liveUnique i k ti _ hi0 hk hli hp) hne
  · intro j t hj
    rw [ht] at hj
    rcases task_set_cases hj with ⟨rfl, rfl⟩ | ⟨_, hj0⟩
    · exact hI.nonSentinel j ⟨dk, p⟩ hk
    · exact hI.nonSentinel j t hj0
  · intro j t hj
    rw [ht] at hj
    rw [hn]
    rcases task_set_cases hj with ⟨rfl, rfl⟩ | ⟨_, hj0⟩
    · exact hkch
    · exact hI.chans j t hj0
  · intro c hcm
    rw [hn]
    rcases hmem c hcm with h1 | h1
    · exact hI.closedOld c h1
    · rw [h1]; exact hkch.2
  · intro j t h hj hf
    rw [ht] at hj
    rw [ha]
    rcases task_set_cases hj with ⟨rfl, rfl⟩ | ⟨_, hj0⟩
    · simp at hf; rw [hf] at hp1; simp [Phase.live] at hp1
    · exact hI.failedOld j t h hj0 hf
  · intro d fired hcs
    rw [ha]
    exact hI.stopActive d fired (hc d fired hcs)

/-- The invariant only reads the tasks, the active session, the closed channels,
the channel counter and the caller. -/
theorem SessionInv_congr (env : Env) (s s1 : Sys) (hI : SessionInv env s)
    (ht : s1.tasks = s.tasks) (ha : s1.active = s.active) (hcl : s1.closed = s.closed)
    (hn : s1.next = s.next)
    (hc : ∀ d fired, s1.caller = .stopping d fired → d = s.active) :
    SessionInv env s1 := by
  constructor
  · rw [ht, ha, hcl]; exact hI.liveActive
  · rw [ht]; exact hI.liveUnique
  · rw [ht]; exact hI.nonSentinel
  · rw [ht, hn]; exact hI.chans
  · rw [hcl, hn]; exact hI.closedOld
  · rw [ht, ha]; exact hI.failedOld
  · rw [ha]; exact hc

/-- On the sentinel session no task is live. -/
theorem no_live_on_sentinel (env : Env) (s : Sys) (hI : SessionInv env s)
    (hact : s.active.id = env.NoVideoCaptureDevice) (k : Nat) (t : Task)
    (hk : s.tasks[k]? = some t) : t.phase.live = false := by
  cases hl : t.phase.live with
  | false => rfl
  | true =>
    have h1 := (hI.liveActive k t hk hl).1
    have h2 := hI.nonSentinel k t hk
    rw [h1] at h2
    exact absurd hact h2

/-- A new session on fresh channels, installed on the sentinel session, with its
task spawned, keeps the invariant. -/
theorem SessionInv_spawn (env : Env) (s s1 : Sys) (d : device)
    (hI : SessionInv env s) (hact : s.active.id = env.NoVideoCaptureDevice)
    (hid : d.id ≠ env.NoVideoCaptureDevice)
    (hq : d.closedq = s.next + 1) (he : d.errq = s.next + 2)
    (ht : s1.tasks = s.tasks ++ [⟨d, .starting⟩]) (ha : s1.active = d)
    (hcl : s1.closed = s.closed) (hn : s1.next = s.next + 3)
    (hc : ∀ d0 fired, s1.caller ≠ .stopping d0 fired) :
    SessionInv env s1 := by
  have hdead := no_live_on_sentinel env s hI hact
  constructor
  · intro j t hj hl
    rw [ht] at hj
    rcases task_concat_cases hj with hj0 | ⟨_, rfl⟩
    · rw [hdead j t hj0] at hl; cases hl
    · refine ⟨ha.symm, fun hcm => ?_⟩
      rw [hcl] at hcm
      have := hI.closedOld _ hcm
      have e : d.closedq = s.next + 1 := hq
      simp only at this
      omega
  · intro i j ti tj hi hj hli hlj
    rw [ht] at hi hj
    rcases task_concat_cases hi with hi0 | ⟨ei, _⟩
    · rw [hdead i ti hi0] at hli; cases hli
    · rcases task_concat_cases hj with hj0 | ⟨ej, _⟩
      · rw [hdead j tj hj0] at hlj; cases hlj
      · rw [ei, ej]
  · intro j t hj
    rw [ht] at hj
    rcases task_concat_cases hj with hj0 | ⟨_, rfl⟩
    · exact hI.nonSentinel j t hj0
    · exact hid
  · intro j t hj
    rw [ht] at hj
    rw [hn]
    rcases task_concat_cases hj with hj0 | ⟨_, rfl⟩
    · have := hI.chans j t hj0
      exact ⟨this.1, by omega⟩
    · simp only
      omega
  · intro c hcm
    rw [hcl] at hcm
    have := hI.closedOld c hcm
    omega
  · intro j t h hj hf
    rw [ht] at hj
    rw [ha]
    rcases task_concat_cases hj with hj0 | ⟨_, rfl⟩
    · have := hI.chans j t hj0
      omega
    · simp at hf
  · intro d0 fired hcs
    exact absurd hcs (hc d0 fired)

/-- After `reset()` with no task live, the invariant holds: tasks that are not live
keep their phase, the new sentinel session is on fresh channels. -/
theorem SessionInv_reset (env : Env) (s s1 : Sys) (hI : SessionInv env s)
    (hdead : ∀ (k : Nat) (t : Task), s1.tasks[k]? = some t → t.phase.live = false)
    (hsame : ∀ (k : Nat) (t : Task), s1.tasks[k]? = some t →
      ∃ t0 : Task, s.tasks[k]? = some t0 ∧ t0.d = t.d)
    (ha : s1.active.closedq = s.next + 1)
    (hcl : s1.closed = s.closed) (hn : s1.next = s.next + 3)
    (hc : ∀ d0 fired, s1.caller ≠ .stopping d0 fired) :
    SessionInv env s1 := by
  constructor
  · intro j t hj hl
    rw [hdead j t hj] at hl; cases hl
  · intro i j ti tj hi _ hli _
    rw [hdead i ti hi] at hli; cases hli
  · intro j t hj
    obtain ⟨t0, h0, e⟩ := hsame j t hj
    rw [← e]; exact hI.nonSentinel j t0 h0
  · intro j t hj
    obtain ⟨t0, h0, e⟩ := hsame j t hj
    have := hI.chans j t0 h0
    rw [← e, hn]
    exact ⟨this.1, by omega⟩
  · intro c hcm
    rw [hcl] at hcm
    have := hI.closedOld c hcm
    omega
  · intro j t h hj _
    obtain ⟨t0, h0, e⟩ := hsame j t hj
    have := hI.chans j t0 h0
    rw [← e, ha]
    omega
  · intro d0 fired hcs
    exact absurd hcs (hc d0 fired)

/-- A task running its deferred calls keeps the invariant: its `closedq` is closed
and it is done. -/
theorem SessionInv_deferred (env : Env) (s s1 : Sys) (k : Nat) (dk : device) (p : Phase)
    (hI : SessionInv env s) (hk : s.tasks[k]? = some ⟨dk, p⟩)
    (hp : p = .leaving ∨ ∃ h, p = .failed h)
    (ht : s1.tasks = s.tasks.set k ⟨dk, .done⟩) (ha : s1.active = s.active)
    (hcl : s1.closed = s.closed ++ [dk.closedq]) (hn : s1.next = s.next)
    (hc : s1.caller = s.caller) :
    SessionInv env s1 := by
  have hkch := hI.chans k _ hk
  constructor
  · intro j t hj hl
    rw [ht] at hj
    rcases task_set_cases hj with ⟨rfl, rfl⟩ | ⟨hne, hj0⟩
    · simp [Phase.live] at hl
    · have h0 := hI.liveActive j t hj0 hl
      refine ⟨by rw [ha]; exact h0.1, fun hcm => ?_⟩
      rw [hcl] at hcm
      rcases List.mem_append.mp hcm with h1 | h1
      · exact h0.2 h1
      · have e : t.d.closedq = dk.closedq := by simpa using h1
        rcases hp with rfl | ⟨h, rfl⟩
        · exact hne (hI.liveUnique j k t _ hj0 hk hl rfl)
        · have := hI.failedOld k _ h hk rfl
          rw [← h0.1] at this
          exact this e.symm
  · intro i j ti tj hi hj hli hlj
    rw [ht] at hi hj
    rcases task_set_cases hi with ⟨rfl, rfl⟩ | ⟨_, hi0⟩
    · simp [Phase.live] at hli
    · rcases task_set_cases hj with ⟨rfl, rfl⟩ | ⟨_, hj0⟩
      · simp [Phase.live] at hlj
      · exact hI.liveUnique i j ti tj hi0 hj0 hli hlj
  · intro j t hj
    rw [ht] at hj
    rcases task_set_cases hj with ⟨rfl, rfl⟩ | ⟨_, hj0⟩
    · exact hI.nonSentinel j ⟨dk, p⟩ hk
    · exact hI.nonSentinel j t hj0
  · intro j t hj
    rw [ht] at hj
    rw [hn]
    rcases task_set_cases hj with ⟨rfl, rfl⟩ | ⟨_, hj0⟩
    · exact hkch
    · exact hI.chans j t hj0
  · intro c hcm
    rw [hn]
    rw [hcl] at hcm
    rcases List.mem_append.mp hcm with h1 | h1
    · exact hI.closedOld c h1
    · have e : c = dk.closedq := by simpa using h1
      have e1 : dk.closedq + 1 = dk.errq := hkch.1
      have e2 : dk.errq < s.next := hkch.2
      omega
  · intro j t h hj hf
    rw [ht] at hj
    rw [ha]
    rcases task_set_cases hj with ⟨rfl, rfl⟩ | ⟨_, hj0⟩
    · simp at hf
    · exact hI.failedOld j t h hj0 hf
  · intro d fired hcs
    rw [ha]
    rw [hc] at hcs
    exact hI.stopActive d fired hcs

/-- What the startup of `capture` does to the session state: it closes `errq` and
goes on to the loop, or reports an error and returns; nothing else changes. -/
theorem capture_core (env : Env) (hw : Hardware) (dk : device) (s s1 : Sys)
    (err : Option String) (phase : Phase)
    (h : capture env hw dk s = some (err, phase, s1)) :
    s1.tasks = s.tasks ∧ s1.active = s.active ∧ s1.next = s.next ∧ s1.caller = s.caller ∧
    ((err = none ∧ phase = .looping ∧ s1.closed = s.closed ++ [dk.errq]) ∨
      (∃ e b, err = some e ∧ phase = .failed b ∧ s1.closed = s.closed)) := by
  simp only [capture] at h
  split at h
  · simp at h
  · split at h
    · simp only [Option.some.injEq, Prod.mk.injEq] at h
      obtain ⟨rfl, rfl, rfl⟩ := h
      exact ⟨rfl, rfl, rfl, rfl, Or.inr ⟨_, _, rfl, rfl, rfl⟩⟩
    · split at h
      · simp only [Option.some.injEq, Prod.mk.injEq] at h
        obtain ⟨rfl, rfl, rfl⟩ := h
        exact ⟨rfl, rfl, rfl, rfl, Or.inr ⟨_, _, rfl, rfl, rfl⟩⟩
      · split at h
        · simp only [Option.some.injEq, Prod.mk.injEq] at h
          obtain ⟨rfl, rfl, rfl⟩ := h
          exact ⟨rfl, rfl, rfl, rfl, Or.inr ⟨_, _, rfl, rfl, rfl⟩⟩
        · simp only [Option.some.injEq, Prod.mk.injEq] at h
          obtain ⟨rfl, rfl, rfl⟩ := h
          exact ⟨rfl, rfl, rfl, rfl, Or.inl ⟨rfl, rfl, rfl⟩⟩

/-- The initial state satisfies the invariant. -/
theorem SessionInv_boot (env : Env) (deviceName : Int → String) (apis : Registry)
    (api : String) : SessionInv env (boot env deviceName apis api) := by
  constructor <;> simp [boot, reset]

/-- A call of `Open` that returns at once changes nothing but the trace. -/
theorem Open_returned_core (env : Env) (s s2 : Sys) (err : Option String)
    (h : Open env s = .returned err s2) :
    s2.tasks = s.tasks ∧ s2.active = s.active ∧ s2.closed = s.closed ∧ s2.next = s.next ∧
      s2.caller = s.caller := by
  simp only [Open] at h
  split at h
  · simp at h; obtain ⟨-, rfl⟩ := h; exact ⟨rfl, rfl, rfl, rfl, rfl⟩
  · split at h
    · simp at h; obtain ⟨-, rfl⟩ := h; exact ⟨rfl, rfl, rfl, rfl, rfl⟩
    · split at h <;> simp at h

/-- A call of `Open` that blocks has installed a new session on the sentinel. -/
theorem Open_blocked_core (env : Env) (s s2 : Sys) (h : Open env s = .blocked s2) :
    s.active.id = env.NoVideoCaptureDevice ∧
    s2.active.id ≠ env.NoVideoCaptureDevice ∧
    s2.active.closedq = s.next + 1 ∧ s2.active.errq = s.next + 2 ∧
    s2.tasks = s.tasks ++ [⟨s2.active, .starting⟩] ∧ s2.closed = s.closed ∧
    s2.next = s.next + 3 := by
  simp only [Open] at h
  split at h
  · simp at h
  · next hcfg =>
    split at h
    · simp at h
    · next hact =>
      split at h
      · simp at h
      · simp at h; subst h
        exact ⟨by simpa using hact, hcfg, rfl, rfl, rfl, rfl, rfl⟩

/-- A call of `Close` that returns at once changes nothing but the trace. -/
theorem Close_returned_core (env : Env) (s s2 : Sys) (err : Option String)
    (h : Close env s = .returned err s2) :
    s2.tasks = s.tasks ∧ s2.active = s.active ∧ s2.closed = s.closed ∧ s2.next = s.next ∧
      s2.caller = s.caller := by
  simp only [Close] at h
  split at h
  · simp at h; obtain ⟨-, rfl⟩ := h; exact ⟨rfl, rfl, rfl, rfl, rfl⟩
  · simp at h

/-- A call of `Close` that blocks is in the state it was called in. -/
theorem Close_blocked_core (env : Env) (s s2 : Sys) (h : Close env s = .blocked s2) :
    s2 = s := by
  simp only [Close] at h
  split at h
  · simp at h
  · simp at h; exact h.symm

/-- The deferred calls of a task close its `closedq` and leave the sessions alone. -/
theorem captureDeferred_core (d : device) (handle : Bool) (s : Sys) :
    (captureDeferred d handle s).tasks = s.tasks ∧
    (captureDeferred d handle s).active = s.active ∧
    (captureDeferred d handle s).closed = s.closed ++ [d.closedq] ∧
    (captureDeferred d handle s).next = s.next ∧
    (captureDeferred d handle s).caller = s.caller := by
  cases handle <;> simp [captureDeferred, Sys.emit]

/-- Every move keeps the invariant. -/
theorem SessionInv_step (env : Env) (s s1 : Sys) (a : Action)
    (hI : SessionInv env s) (h : step env s a = some s1) : SessionInv env s1 := by
  cases a with
  | callOpen =>
    cases hc : s.caller with
    | idle =>
      simp only [step, hc] at h
      cases ho : Open env s with
      | panic => simp [ho] at h
      | returned err s2 =>
        simp [ho] at h; subst h
        obtain ⟨ht, ha, hcl, hn, hcal⟩ := Open_returned_core env s s2 err ho
        exact SessionInv_congr env s _ hI ht ha hcl hn (by simp [Sys.emit, hcal, hc])
      | blocked s2 =>
        simp [ho] at h; subst h
        obtain ⟨hact, hid, hq, he, ht, hcl, hn⟩ := Open_blocked_core env s s2 ho
        exact SessionInv_spawn env s _ s2.active hI hact hid hq he ht rfl hcl hn (by simp)
    | opening d => simp [step, hc] at h
    | stopping d fired => simp [step, hc] at h
    | draining d => simp [step, hc] at h
  | callClose =>
    cases hc : s.caller with
    | idle =>
      simp only [step, hc] at h
      cases ho : Close env s with
      | panic => simp [ho] at h
      | returned err s2 =>
        simp [ho] at h; subst h
        obtain ⟨ht, ha, hcl, hn, hcal⟩ := Close_returned_core env s s2 err ho
        exact SessionInv_congr env s _ hI ht ha hcl hn (by simp [Sys.emit, hcal, hc])
      | blocked s2 =>
        simp [ho] at h; subst h
        have e := Close_blocked_core env s s2 ho
        subst e
        exact SessionInv_congr env s2 _ hI rfl rfl rfl rfl (by
          intro d fired hcs
          simp at hcs
          exact hcs.1.symm)
    | opening d => simp [step, hc] at h
    | stopping d fired => simp [step, hc] at h
    | draining d => simp [step, hc] at h
  | configure c =>
    simp only [step] at h
    split at h
    · next hc =>
      simp at h; subst h
      exact SessionInv_congr env s _ hI rfl rfl rfl rfl (by simp [hc])
    · simp at h
  | startup k hw =>
    simp only [step] at h
    split at h
    · next d dk hc hk =>
      split at h
      · split at h
        · simp at h
        · next err phase s2 hcap =>
          obtain ⟨ht, ha, hn, hcl, hcase⟩ := capture_core env hw dk s s2 err phase hcap
          rcases hcase with ⟨rfl, rfl, hclosed⟩ | ⟨e, b, rfl, rfl, hclosed⟩
          · simp [OpenReceived] at h; subst h
            exact SessionInv_rephase env s _ k dk .starting .looping hI hk rfl rfl
              (by simp [Sys.emit, ht]) (by simp [Sys.emit, ha])
              (Or.inr (by simp [Sys.emit, hclosed])) (by simp [Sys.emit, hn])
              (by simp [Sys.emit])
          · simp [OpenReceived] at h; subst h
            have hdead : ∀ (j : Nat) (t : Task),
                (s.tasks.set k ⟨dk, .failed b⟩)[j]? = some t → t.phase.live = false := by
              intro j t hj
              rcases task_set_cases hj with ⟨rfl, rfl⟩ | ⟨hne, hj0⟩
              · rfl
              · cases hl : t.phase.live with
                | false => rfl
                | true => exact absurd (hI.liveUnique j k t _ hj0 hk hl rfl) hne
            have hsame : ∀ (j : Nat) (t : Task),
                (s.tasks.set k ⟨dk, .failed b⟩)[j]? = some t →
                ∃ t0 : Task, s.tasks[j]? = some t0 ∧ t0.d = t.d := by
              intro j t hj
              rcases task_set_cases hj with ⟨rfl, rfl⟩ | ⟨_, hj0⟩
              · exact ⟨_, hk, rfl⟩
              · exact ⟨t, hj0, rfl⟩
            exact SessionInv_reset env s _ hI
              (by simpa [Sys.emit, reset, ht] using hdead)
              (by simpa [Sys.emit, reset, ht] using hsame)
              (by simp [Sys.emit, reset, hn]) (by simp [Sys.emit, reset, hclosed])
              (by simp [Sys.emit, reset, hn]) (by simp [Sys.emit, reset])
      · simp at h
    · simp at h
  | frame k ok f =>
    simp only [step] at h
    split at h
    · next dk hk =>
      simp only [captureRead] at h
      split at h
      · simp at h; subst h
        exact SessionInv_rephase env s _ k dk .looping .leaving hI hk rfl rfl rfl rfl
          (Or.inl rfl) rfl (fun _ _ hc => hc)
      · simp at h; subst h
        exact SessionInv_rephase env s _ k dk .looping .looping hI hk rfl rfl rfl rfl
          (Or.inl rfl) rfl (fun _ _ hc => hc)
    · simp at h
  | offer k =>
    simp only [step] at h
    split at h
    · next d fired dk hc hk =>
      split at h
      · simp at h; subst h
        exact SessionInv_rephase env s _ k dk .looping .leaving hI hk rfl rfl rfl rfl
          (Or.inl rfl) rfl (fun _ _ hc => hc)
      · simp at h
    · simp at h
  | deferred k =>
    simp only [step] at h
    split at h
    · next dk handle hk =>
      simp at h; subst h
      obtain ⟨ht, ha, hcl, hn, hcal⟩ := captureDeferred_core dk handle s
      exact SessionInv_deferred env s _ k dk (.failed handle) hI hk (Or.inr ⟨_, rfl⟩)
        (by simp [ht]) ha hcl hn hcal
    · next dk hk =>
      simp at h; subst h
      obtain ⟨ht, ha, hcl, hn, hcal⟩ := captureDeferred_core dk true s
      exact SessionInv_deferred env s _ k dk .leaving hI hk (Or.inl rfl)
        (by simp [ht]) ha hcl hn hcal
    · simp at h
  | acked =>
    simp only [step] at h
    split at h
    · next d fired hc =>
      split at h
      · next hack =>
        have hd := hI.stopActive d fired hc
        split at h
        · simp at h; subst h
          exact SessionInv_congr env s _ hI rfl rfl rfl rfl (by simp)
        · simp at h; subst h
          have hdead : ∀ (j : Nat) (t : Task), s.tasks[j]? = some t →
              t.phase.live = false := by
            intro j t hj
            cases hl : t.phase.live with
            | false => rfl
            | true =>
              have h0 := hI.liveActive j t hj hl
              rw [h0.1, ← hd] at h0
              exact absurd hack h0.2
          exact SessionInv_reset env s _ hI hdead (fun j t hj => ⟨t, hj, rfl⟩)
            rfl rfl rfl (by simp [Sys.emit])
      · simp at h
    · simp at h
  | timeout =>
    simp only [step] at h
    split at h
    · next d hc =>
      simp at h; subst h
      have hd := hI.stopActive d false hc
      exact SessionInv_congr env s _ hI rfl rfl rfl rfl (by
        intro d0 fired hcs
        simp [Sys.emit] at hcs
        rw [← hcs.1]; exact hd)
    · simp at h
  | discovery deviceName =>
    simp only [step] at h
    simp at h; subst h
    exact SessionInv_congr env s _ hI rfl rfl rfl rfl (fun d fired hc => hI.stopActive d fired hc)

/-- Every run keeps the invariant. -/
theorem SessionInv_run (env : Env) (acts : List Action) (s s1 : Sys)
    (hI : SessionInv env s) (h : run env s acts = some s1) : SessionInv env s1 := by
  induction acts generalizing s with
  | nil => simp [run] at h; subst h; exact hI
  | cons a rest ih =>
    simp only [run] at h
    split at h
    · simp at h
    · next s2 hs => exact ih s2 (SessionInv_step env s s2 a hI hs) h

/-- Every reachable state satisfies the invariant. -/
theorem SessionInv_reachable (env : Env) (s : Sys) (hr : Reachable env s) :
    SessionInv env s := by
  obtain ⟨deviceName, apis, api, acts, hrun⟩ := hr
  exact SessionInv_run env acts _ s (SessionInv_boot env deviceName apis api) hrun

/-- While `Open` waits for the startup report, the active session is the one it
waits on. -/
theorem opening_active (env : Env) (acts : List Action) (s s1 : Sys)
    (h0 : ∀ d, s.caller = .opening d → d = s.active)
    (h : run env s acts = some s1) : ∀ d, s1.caller = .opening d → d = s1.active := by
  induction acts generalizing s with
  | nil => simp [run] at h; subst h; exact h0
  | cons a rest ih =>
    simp only [run] at h
    split at h
    · simp at h
    · next s2 hs =>
      refine ih s2 ?_ h
      cases a with
      | callOpen =>
        cases hc : s.caller with
        | idle =>
          simp only [step, hc] at hs
          cases ho : Open env s with
          | panic => simp [ho] at hs
          | returned err s3 =>
            simp [ho] at hs; subst hs
            obtain ⟨-, -, -, -, hcal⟩ := Open_returned_core env s s3 err ho
            simp [Sys.emit, hcal, hc]
          | blocked s3 =>
            simp [ho] at hs; subst hs
            simp
        | opening d => simp [step, hc] at hs
        | stopping d fired => simp [step, hc] at hs
        | draining d => simp [step, hc] at hs
      | callClose =>
        cases hc : s.caller with
        | idle =>
          simp only [step, hc] at hs
          cases ho : Close env s with
          | panic => simp [ho] at hs
          | returned err s3 =>
            simp [ho] at hs; subst hs
            obtain ⟨-, -, -, -, hcal⟩ := Close_returned_core env s s3 err ho
            simp [Sys.emit, hcal, hc]
          | blocked s3 =>
            simp [ho] at hs; subst hs
            simp
        | opening d => simp [step, hc] at hs
        | stopping d fired => simp [step, hc] at hs
        | draining d => simp [step, hc] at hs
      | configure c =>
        cases hc : s.caller <;> simp [step, hc] at hs
        subst hs; simp [hc]
      | startup k hw =>
        simp only [step] at hs
        split at hs
        · split at hs
          · split at hs
            · simp at hs
            · simp at hs; subst hs; simp [Sys.emit]
          · simp at hs
        · simp at hs
      | frame k ok f =>
        simp only [step] at hs
        split at hs
        · simp only [captureRead] at hs
          split at hs <;> (simp at hs; subst hs; simpa [Sys.emit] using h0)
        · simp at hs
      | offer k =>
        simp only [step] at hs
        split at hs
        · next d fired dk hc hk =>
          split at hs
          · simp at hs; subst hs; simp [hc]
          · simp at hs
        · simp at hs
      | deferred k =>
        simp only [step] at hs
        split at hs
        · next dk handle hk =>
          simp at hs; subst hs
          obtain ⟨-, ha, -, -, hcal⟩ := captureDeferred_core dk handle s
          simpa [ha, hcal] using h0
        · next dk hk =>
          simp at hs; subst hs
          obtain ⟨-, ha, -, -, hcal⟩ := captureDeferred_core dk true s
          simpa [ha, hcal] using h0
        · simp at hs
      | acked =>
        simp only [step] at hs
        split at hs
        · split at hs
          · split at hs <;> (simp at hs; subst hs; simp [Sys.emit])
          · simp at hs
        · simp at hs
      | timeout =>
        simp only [step] at hs
        split at hs
        · simp at hs; subst hs; simp [Sys.emit]
        · simp at hs
      | discovery deviceName =>
        simp only [step] at hs
        simp at hs; subst hs; simpa using h0

/-- Which moves replace the active session. -/
theorem step_active (env : Env) (s s1 : Sys) (a : Action)
    (hstop : ∀ d fired, s.caller = .stopping d fired → d = s.active)
    (hopen : ∀ d, s.caller = .opening d → d = s.active)
    (h : step env s a = some s1) :
    s1.active = s.active ∨
    (a = .acked ∧ s.active.closedq ∈ s.closed) ∨
    (a = .callOpen ∧ s.active.id = env.NoVideoCaptureDevice) ∨
    (∃ k hw err, a = .startup k hw ∧ s.caller = .opening s.active ∧
      s1.trace.getLast? = some (.openReturned (some err))) := by
  cases a with
  | callOpen =>
    cases hc : s.caller with
    | idle =>
      simp only [step, hc] at h
      cases ho : Open env s with
      | panic => simp [ho] at h
      | returned err s2 =>
        simp [ho] at h; subst h
        exact Or.inl (Open_returned_core env s s2 err ho).2.1
      | blocked s2 =>
        exact Or.inr (Or.inr (Or.inl ⟨rfl, (Open_blocked_core env s s2 ho).1⟩))
    | opening d => simp [step, hc] at h
    | stopping d fired => simp [step, hc] at h
    | draining d => simp [step, hc] at h
  | callClose =>
    cases hc : s.caller with
    | idle =>
      simp only [step, hc] at h
      cases ho : Close env s with
      | panic => simp [ho] at h
      | returned err s2 =>
        simp [ho] at h; subst h
        exact Or.inl (Close_returned_core env s s2 err ho).2.1
      | blocked s2 =>
        simp [ho] at h; subst h
        have e := Close_blocked_core env s s2 ho
        subst e
        exact Or.inl rfl
    | opening d => simp [step, hc] at h
    | stopping d fired => simp [step, hc] at h
    | draining d => simp [step, hc] at h
  | configure c =>
    cases hc : s.caller <;> simp [step, hc] at h
    subst h; exact Or.inl rfl
  | startup k hw =>
    simp only [step] at h
    split at h
    · next d dk hc hk =>
      split at h
      · split at h
        · simp at h
        · next err phase s2 hcap =>
          obtain ⟨-, ha, -, -, hcase⟩ := capture_core env hw dk s s2 err phase hcap
          rcases hcase with ⟨rfl, rfl, -⟩ | ⟨e, b, rfl, rfl, -⟩
          · simp [OpenReceived] at h; subst h
            exact Or.inl (by simp [Sys.emit, ha])
          · simp [OpenReceived] at h; subst h
            refine Or.inr (Or.inr (Or.inr ⟨k, hw, e, rfl, ?_, by simp [Sys.emit]⟩))
            rw [hc, hopen d hc]
      · simp at h
    · simp at h
  | frame k ok f =>
    simp only [step] at h
    split at h
    · simp only [captureRead] at h
      split at h <;> (simp at h; subst h; exact Or.inl rfl)
    · simp at h
  | offer k =>
    simp only [step] at h
    split at h
    · split at h
      · simp at h; subst h; exact Or.inl rfl
      · simp at h
    · simp at h
  | deferred k =>
    simp only [step] at h
    split at h
    · next dk handle hk =>
      simp at h; subst h
      exact Or.inl (captureDeferred_core dk handle s).2.1
    · next dk hk =>
      simp at h; subst h
      exact Or.inl (captureDeferred_core dk true s).2.1
    · simp at h
  | acked =>
    simp only [step] at h
    split at h
    · next d fired hc =>
      split at h
      · next hack =>
        refine Or.inr (Or.inl ⟨rfl, ?_⟩)
        rw [← hstop d fired hc]; exact hack
      · simp at h
    · simp at h
  | timeout =>
    simp only [step] at h
    split at h
    · simp at h; subst h; exact Or.inl rfl
    · simp at h
  | discovery deviceName =>
    simp only [step] at h
    simp at h; subst h; exact Or.inl rfl

/-- C10, as stated, is false: `Open()` of device 0 creates a session and waits;
the device does not open, `Open` receives the startup error and `reset()`
replaces that session, which is not the sentinel, while its task has not yet
run its deferred calls: `closedq` is not closed, before or after the move. -/
theorem replaced_before_ack_counterexample :
    ∃ s1, Reachable env0 opening0 ∧
      step env0 opening0 (.startup 0 hwClosed) = some s1 ∧
      s1.active ≠ opening0.active ∧
      opening0.active.id ≠ env0.NoVideoCaptureDevice ∧
      opening0.active.closedq ∉ opening0.closed ∧
      opening0.active.closedq ∉ s1.closed ∧
      s1.tasks = [⟨opening0.active, .failed false⟩] := by
  refine ⟨_, ?_, rfl, by decide, by decide, by decide, by decide, by decide⟩
  exact ⟨deviceName0, registry0, "", [.configure config0, .callOpen], by decide⟩

/-- C10, amended: in every reachable state at most one capture task is live
(before or in its run loop, or leaving it) and it is the task of the active
session; and the active session is replaced only by the reset of `Close` after
the acknowledgment `closedq` of the session was raised, by a new session of
`Open` when the session is the sentinel, or by the reset of `Open` on receiving
the startup error of the session it has just created. -/
theorem session_replacement (env : Env) (s : Sys) (hr : Reachable env s) :
    AtMostOneLive s ∧ ReplacementJustified env s := by
  have hI := SessionInv_reachable env s hr
  have hopen : ∀ d, s.caller = .opening d → d = s.active := by
    obtain ⟨deviceName, apis, api, acts, hrun⟩ := hr
    exact opening_active env acts _ s (by simp [boot, reset]) hrun
  constructor
  · intro i j ti tj hi hj hli hlj
    exact ⟨hI.liveUnique i j ti tj hi hj hli hlj, (hI.liveActive i ti hi hli).1⟩
  · intro a s1 hstep hne
    rcases step_active env s s1 a hI.stopActive hopen hstep with h | h
    · exact absurd h hne
    · exact h

/-- Witness of C10 amended: the state in which `Close()` is about to receive the
acknowledgment. -/
theorem session_replacement_witness :
    Reachable env0 acked0 ∧ AtMostOneLive acked0 ∧ ReplacementJustified env0 acked0 :=
  have hr : Reachable env0 acked0 :=
    ⟨deviceName0, registry0, "",
      [.configure config0, .callOpen, .startup 0 hwGood, .frame 0 true ⟨1080, 1920, 7⟩,
        .callClose, .offer 0, .deferred 0], by decide⟩
  ⟨hr, session_replacement env0 acked0 hr⟩

/-! ## Source catalog: theorems -/

/-- The loop of `sources` from slot `i` with `fuel` rounds left, slots up to 10:
it takes the slots from `i` up to the first empty one. -/
theorem sourcesLoop_spec (deviceName : Int → String) (fuel i : Nat) (s : List Int)
    (n : List String) (h10 : i + fuel = 10) :
    ∃ k : Nat, i ≤ k ∧ k ≤ 10 ∧ (∀ j : Nat, i ≤ j → j < k → deviceName (j : Int) ≠ "") ∧
      (k < 10 → deviceName (k : Int) = "") ∧
      sourcesLoop deviceName fuel (i : Int) s n =
        (s ++ (List.range' i (k - i)).map (fun j : Nat => (j : Int)),
          n ++ (List.range' i (k - i)).map (fun j : Nat => deviceName (j : Int))) := by
  induction fuel generalizing i s n with
  | zero =>
    refine ⟨i, le_refl _, by omega, fun j h1 h2 => by omega, fun h => by omega, ?_⟩
    simp [sourcesLoop]
  | succ fuel ih =>
    have hlt : (i : Int) < 10 := by omega
    by_cases he : deviceName (i : Int) = ""
    · refine ⟨i, le_refl _, by omega, fun j h1 h2 => by omega, fun _ => he, ?_⟩
      simp [sourcesLoop, hlt, he]
    · obtain ⟨k, hk1, hk2, hk3, hk4, hk5⟩ :=
        ih (i + 1) (s ++ [(i : Int)]) (n ++ [deviceName (i : Int)]) (by omega)
      refine ⟨k, by omega, hk2, ?_, hk4, ?_⟩
      · intro j h1 h2
        by_cases hj : j = i
        · rw [hj]; exact he
        · exact hk3 j (by omega) h2
      · have hcast : ((i : Int) + 1) = ((i + 1 : Nat) : Int) := by push_cast; rfl
        have hlen : k - i = (k - (i + 1)) + 1 := by omega
        simp only [sourcesLoop, hlt, he, if_true, if_false]
        rw [hcast, hk5, hlen, List.range'_succ]
        simp

/-- C14: for every probe function, `sources()` returns two lists of the same
length k, at most 10, where k is the first slot of 0..9 whose name is empty (10
when none is): the slots 0, 1, ..., k-1 and their names, all non-empty; no slot
after the first empty one is included. -/
theorem sources_spec (deviceName : Int → String) :
    ∃ k : Nat, k ≤ 10 ∧ (∀ i : Nat, i < k → deviceName (i : Int) ≠ "") ∧
      (k < 10 → deviceName (k : Int) = "") ∧
      (sources deviceName).1.length = k ∧ (sources deviceName).2.length = k ∧
      (sources deviceName).1 = (List.range k).map (fun i : Nat => (i : Int)) ∧
      (sources deviceName).2 = (List.range k).map (fun i : Nat => deviceName (i : Int)) := by
  obtain ⟨k, -, hk2, hk3, hk4, hk5⟩ := sourcesLoop_spec deviceName 10 0 [] [] rfl
  have hs : sources deviceName =
      ((List.range k).map (fun i : Nat => (i : Int)),
        (List.range k).map (fun i : Nat => deviceName (i : Int))) := by
    simpa [sources, List.range_eq_range'] using hk5
  refine ⟨k, hk2, fun i hi => hk3 i (Nat.zero_le _) hi, hk4, ?_, ?_, ?_, ?_⟩ <;> simp [hs]

/-! ## Backend registry: theorems -/

/-- The names the registry loop appends from identifier `i` on, `fuel` rounds,
identifiers below 5000: those of the identifiers whose gocv name is not empty. -/
theorem registryLoop_names (env : Env) (fuel i : Nat) (r : Registry)
    (h : i + fuel ≤ 5000) :
    (registryLoop env fuel (i : Int) r).names =
      r.names ++ ((((List.range' i fuel).map Int.ofNat).filter
        (fun j => env.APIString j ≠ "")).map (APIName env)) := by
  induction fuel generalizing i r with
  | zero => simp [registryLoop]
  | succ fuel ih =>
    have hlt : (i : Int) < 5000 := by omega
    have hcast : ((i : Int) + 1) = ((i + 1 : Nat) : Int) := by push_cast; rfl
    by_cases he : env.APIString (i : Int) = ""
    · simp only [registryLoop, hlt, he, if_true]
      rw [hcast, ih (i + 1) r (by omega), List.range'_succ]
      simp [he]
    · simp only [registryLoop, hlt, he, if_true, if_false]
      rw [hcast, ih (i + 1) _ (by omega), List.range'_succ]
      simp [he]

/-- C12: when the registry goroutine has ended, `APIs()` is the name of backend 0
followed by a list in ascending order that is a rearrangement of the names of
all backends 1..4999 whose gocv name is not empty; the name of backend 0 is in
front whatever names are probed. -/
theorem APIs_after_build (env : Env) :
    ∃ tail, APIs (registryBuilt env) = APIName env 0 :: tail ∧
      tail.Sorted (· ≤ ·) ∧ tail.Perm (backendNames env) := by
  refine ⟨sortStrings (registryProbed env).names, rfl, ?_, ?_⟩
  · exact List.sorted_insertionSort _ _
  · have hn : (registryProbed env).names = backendNames env := by
      have := registryLoop_names env 4999 1 registryStart (by norm_num)
      simpa [registryProbed, registryAfter, backendNames, registryStart] using this
    rw [← hn]
    exact List.perm_insertionSort _ _

/-- Every key the registry loop writes into `values` is the display name of a
probed backend whose gocv name is not empty. -/
theorem registryLoop_keys (env : Env) (fuel i : Nat) (r : Registry) (hi : 1 ≤ i)
    (h : i + fuel ≤ 5000)
    (hr : ∀ p ∈ r.values, ∃ j : Nat, 1 ≤ j ∧ j < 5000 ∧ env.APIString (j : Int) ≠ "" ∧
      p.1 = APIName env (j : Int)) :
    ∀ p ∈ (registryLoop env fuel (i : Int) r).values,
      ∃ j : Nat, 1 ≤ j ∧ j < 5000 ∧ env.APIString (j : Int) ≠ "" ∧
        p.1 = APIName env (j : Int) := by
  induction fuel generalizing i r with
  | zero => simpa [registryLoop] using hr
  | succ fuel ih =>
    have hlt : (i : Int) < 5000 := by omega
    have hcast : ((i : Int) + 1) = ((i + 1 : Nat) : Int) := by push_cast; rfl
    by_cases he : env.APIString (i : Int) = ""
    · simp only [registryLoop, hlt, he, if_true]
      rw [hcast]
      exact ih (i + 1) r (by omega) (by omega) hr
    · simp only [registryLoop, hlt, he, if_true, if_false]
      rw [hcast]
      refine ih (i + 1) _ (by omega) (by omega) ?_
      intro p hp
      rcases List.mem_cons.mp hp with rfl | hp
      · exact ⟨i, hi, by omega, he, rfl⟩
      · exact hr p hp

/-- Once the registry goroutine has ended, `API("")` is 0, provided no probed
backend has the display name of backend 0: the name in front, `APIName(0)`, is
then no key of `values`, and the map read gives the zero value. -/
theorem API_default_after_build (env : Env)
    (hname : ∀ j : Nat, 1 ≤ j → j < 5000 → env.APIString (j : Int) ≠ "" →
      APIName env (j : Int) ≠ APIName env 0) :
    API (registryBuilt env) "" = some 0 := by
  have hkeys := registryLoop_keys env 4999 1 registryStart (le_refl _) (by norm_num)
    (by simp [registryStart])
  have hnone : (registryProbed env).values.lookup (APIName env 0) = none := by
    rw [List.lookup_eq_none_iff]
    intro p hp
    obtain ⟨j, h1, h2, h3, h4⟩ := hkeys p hp
    have := hname j h1 h2 h3
    rw [← h4] at this
    simpa using fun e => this e.symm
  simp [API, registryBuilt, registrySorted, Registry.value, hnone]

/-- C11 fails on the code: before the registry goroutine has appended a name,
`apis.names` is empty and `API("")` panics on `apis.names[0]`, on every platform;
and on a platform whose first named backend is 200, after 200 rounds of the
loop `API("")` is 200, the identifier of that backend, not 0. -/
theorem API_default_during_build :
    (∀ env : Env, registryAfter env 0 = registryStart ∧
      API (registryAfter env 0) "" = none) ∧
    registryAfter env1 200 = ⟨["video-capture-vfw"], [("video-capture-vfw", 200)]⟩ ∧
    API (registryAfter env1 200) "" = some 200 := by
  refine ⟨fun env => ⟨rfl, rfl⟩, ?_, ?_⟩
  · set_option maxRecDepth 100000 in rfl
  · set_option maxRecDepth 100000 in decide

/-! ## Capture task: theorems -/

/-- The events of the startup of `capture`: no release and no close of `closedq`;
the handle is acquired exactly when the device opens, and then the task goes on
to the loop or fails with the handle to release. -/
theorem capture_trace (env : Env) (hw : Hardware) (d : device) (s s1 : Sys)
    (err : Option String) (phase : Phase) (hq : d.closedq ≠ d.errq)
    (h : capture env hw d s = some (err, phase, s1)) :
    ∃ pre, s1.trace = s.trace ++ pre ∧
      Event.closeChan d.closedq ∉ pre ∧ Event.release d ∉ pre ∧
      (hw.opens = true → Event.acquire d ∈ pre ∧ (phase = .failed true ∨ phase = .looping)) ∧
      (hw.opens = false → Event.acquire d ∉ pre ∧ phase = .failed false) := by
  simp only [capture] at h
  split at h
  · simp at h
  · next a _ =>
    split at h
    · next hop =>
      simp only [Option.some.injEq, Prod.mk.injEq] at h
      obtain ⟨-, rfl, rfl⟩ := h
      refine ⟨[Event.notify .System ("Device: Opening \"" ++ d.name ++ "\" with API \"" ++ APIName env a ++ "\"")], rfl, by simp, by simp, ?_, ?_⟩
      · intro ho; simp [ho] at hop
      · intro _; simp
    · next hop =>
      have hopen : hw.opens = true := by simpa using hop
      split at h
      · simp only [Option.some.injEq, Prod.mk.injEq] at h
        obtain ⟨-, rfl, rfl⟩ := h
        refine ⟨[Event.notify .System ("Device: Opening \"" ++ d.name ++ "\" with API \"" ++ APIName env a ++ "\""), Event.acquire d, Event.notify .System ("Device: Applying dimensions (" ++ env.MainResolution.String ++ ")")],
          by simp [Sys.emit], by simp, by simp, ?_, ?_⟩
        · intro _; simp
        · intro ho; simp [ho] at hopen
      · split at h
        · simp only [Option.some.injEq, Prod.mk.injEq] at h
          obtain ⟨-, rfl, rfl⟩ := h
          refine ⟨[Event.notify .System ("Device: Opening \"" ++ d.name ++ "\" with API \"" ++ APIName env a ++ "\""), Event.acquire d, Event.notify .System ("Device: Applying dimensions (" ++ env.MainResolution.String ++ ")")],
            by simp [Sys.emit], by simp, by simp, ?_, ?_⟩
          · intro _; simp
          · intro ho; simp [ho] at hopen
        · simp only [Option.some.injEq, Prod.mk.injEq] at h
          obtain ⟨-, rfl, rfl⟩ := h
          refine ⟨[Event.notify .System ("Device: Opening \"" ++ d.name ++ "\" with API \"" ++ APIName env a ++ "\""), Event.acquire d, Event.notify .System ("Device: Applying dimensions (" ++ env.MainResolution.String ++ ")"), Event.closeChan d.errq],
            by simp [Sys.emit], ?_, by simp, ?_, ?_⟩
          · simpa using hq
          · intro _; simp
          · intro ho; simp [ho] at hopen

/-- The events of the run loop of `capture`: warnings only. -/
theorem captureRounds_trace (d : device) (reads : List (Bool × Mat)) (s : Sys) :
    ∃ mid, (captureRounds d reads s).trace = s.trace ++ mid ∧
      ∀ e ∈ mid, ∃ text, e = Event.notify .Warn text := by
  induction reads generalizing s with
  | nil => exact ⟨[], by simp [captureRounds], by simp⟩
  | cons r rest ih =>
    obtain ⟨ok, f⟩ := r
    simp only [captureRounds, captureRead]
    split
    · next s1 heq =>
      split at heq
      · simp at heq
      · simp only [Prod.mk.injEq, true_and] at heq
        subst heq
        obtain ⟨mid, h1, h2⟩ := ih { s with mat := f }
        exact ⟨mid, h1, h2⟩
    · next ph s1 hne heq =>
      split at heq
      · simp only [Prod.mk.injEq] at heq
        obtain ⟨-, rfl⟩ := heq
        exact ⟨[Event.notify .Warn ("Device: Failed to capture from \"" ++ d.name ++ "\"")],
          by simp [Sys.emit], by simp⟩
      · simp only [Prod.mk.injEq] at heq
        obtain ⟨rfl, -⟩ := heq
        exact absurd rfl hne

/-- The events of the deferred calls of `capture`, in their order. -/
theorem captureDeferred_trace (d : device) (handle : Bool) (s : Sys) :
    (captureDeferred d handle s).trace =
      s.trace ++ ((if handle then [Event.release d] else []) ++
        [Event.notify .System ("Device: Closing \"" ++ d.name ++ "\"..."),
          Event.closeChan d.closedq]) ∧
    d.closedq ∈ (captureDeferred d handle s).closed := by
  cases handle <;> simp [captureDeferred, Sys.emit]

/-- The startup of `capture` reports whenever `API` does not panic. -/
theorem capture_isSome (env : Env) (hw : Hardware) (d : device) (s : Sys)
    (hapi : API s.apis s.config.VideoCaptureAPI ≠ none) :
    ∃ err phase s1, capture env hw d s = some (err, phase, s1) := by
  obtain ⟨a, ha⟩ := Option.ne_none_iff_exists'.mp hapi
  simp only [capture, ha]
  split
  · exact ⟨_, _, _, rfl⟩
  · split
    · exact ⟨_, _, _, rfl⟩
    · split
      · exact ⟨_, _, _, rfl⟩
      · exact ⟨_, _, _, rfl⟩

/-- Events without a release or a close of `closedq`, followed by the deferred
calls, acknowledge once. -/
theorem acknowledgedOnce_of (d : device) (opened : Bool) (text : String)
    (pre : List Event)
    (hc : Event.closeChan d.closedq ∉ pre) (hr : Event.release d ∉ pre)
    (ha : opened = true → Event.acquire d ∈ pre)
    (hna : opened = false → Event.acquire d ∉ pre) :
    AcknowledgedOnce d opened
      (pre ++ ((if opened then [Event.release d] else []) ++
        [Event.notify .System text, Event.closeChan d.closedq])) := by
  have hcount : pre.count (Event.closeChan d.closedq) = 0 := List.count_eq_zero.mpr hc
  cases opened with
  | false =>
    refine ⟨?_, ?_, ?_, ?_⟩
    · simp [List.count_append, hcount, List.count_cons]
    · simp
    · intro h; cases h
    · intro _
      have := hna rfl
      simp [this, hr]
  | true =>
    refine ⟨?_, ?_, ?_, ?_⟩
    · simp [List.count_append, hcount, List.count_cons]
    · simp
    · intro _
      exact ⟨pre, [Event.notify .System text, Event.closeChan d.closedq], by simp,
        ha rfl, hr, hc⟩
    · intro h; cases h

/-- C13: whatever the hardware does at startup and whatever the reads of the loop
answer (open failure, dimension mismatch, failed or empty read, stop signal
when the reads are used up), `capture` runs to its end, and among the events
it adds `closedq` is closed exactly once, as the last one, after the release of
the device handle when one was opened (`API` not panicking, `closedq` and `errq`
being two channels). -/
theorem capture_acknowledges_once (env : Env) (hw : Hardware) (reads : List (Bool × Mat))
    (d : device) (s : Sys)
    (hapi : API s.apis s.config.VideoCaptureAPI ≠ none) (hq : d.closedq ≠ d.errq) :
    ∃ s1 evs, captureTask env hw reads d s = some s1 ∧ s1.trace = s.trace ++ evs ∧
      AcknowledgedOnce d hw.opens evs ∧ d.closedq ∈ s1.closed := by
  obtain ⟨err, phase, s0, hcap⟩ := capture_isSome env hw d s hapi
  obtain ⟨pre, hpre, hc, hr, hopen, hclosed⟩ := capture_trace env hw d s s0 err phase hq hcap
  cases ho : hw.opens with
  | false =>
    obtain ⟨hna, hph⟩ := hclosed ho
    subst hph
    have htask : captureTask env hw reads d s = some (captureDeferred d false s0) := by
      simp [captureTask, hcap]
    obtain ⟨ht, hcl⟩ := captureDeferred_trace d false s0
    have hA := acknowledgedOnce_of d false ("Device: Closing \"" ++ d.name ++ "\"...") pre
      hc hr (fun h => by cases h) (fun _ => hna)
    have htr : (captureDeferred d false s0).trace = s.trace ++ (pre ++
        ((if false = true then [Event.release d] else []) ++
          [Event.notify .System ("Device: Closing \"" ++ d.name ++ "\"..."),
            Event.closeChan d.closedq])) := by
      rw [ht, hpre, List.append_assoc]
    exact ⟨_, _, htask, htr, hA, hcl⟩
  | true =>
    obtain ⟨hacq, hph⟩ := hopen ho
    rcases hph with rfl | rfl
    · have htask : captureTask env hw reads d s = some (captureDeferred d true s0) := by
        simp [captureTask, hcap]
      obtain ⟨ht, hcl⟩ := captureDeferred_trace d true s0
      have hA := acknowledgedOnce_of d true ("Device: Closing \"" ++ d.name ++ "\"...") pre
        hc hr (fun _ => hacq) (fun h => by cases h)
      have htr : (captureDeferred d true s0).trace = s.trace ++ (pre ++
          ((if true = true then [Event.release d] else []) ++
            [Event.notify .System ("Device: Closing \"" ++ d.name ++ "\"..."),
              Event.closeChan d.closedq])) := by
        rw [ht, hpre, List.append_assoc]
      exact ⟨_, _, htask, htr, hA, hcl⟩
    · have htask : captureTask env hw reads d s =
          some (captureDeferred d true (captureRounds d reads s0)) := by
        simp [captureTask, hcap]
      obtain ⟨mid, hmid, hwarn⟩ := captureRounds_trace d reads s0
      obtain ⟨ht, hcl⟩ := captureDeferred_trace d true (captureRounds d reads s0)
      have hc2 : Event.closeChan d.closedq ∉ pre ++ mid := by
        intro hm
        rcases List.mem_append.mp hm with h1 | h1
        · exact hc h1
        · obtain ⟨text, e⟩ := hwarn _ h1
          cases e
      have hr2 : Event.release d ∉ pre ++ mid := by
        intro hm
        rcases List.mem_append.mp hm with h1 | h1
        · exact hr h1
        · obtain ⟨text, e⟩ := hwarn _ h1
          cases e
      have hA := acknowledgedOnce_of d true ("Device: Closing \"" ++ d.name ++ "\"...")
        (pre ++ mid) hc2 hr2 (fun _ => List.mem_append_left _ hacq) (fun h => by cases h)
      have htr : (captureDeferred d true (captureRounds d reads s0)).trace =
          s.trace ++ ((pre ++ mid) ++
            ((if true = true then [Event.release d] else []) ++
              [Event.notify .System ("Device: Closing \"" ++ d.name ++ "\"..."),
                Event.closeChan d.closedq])) := by
        rw [ht, hmid, hpre, List.append_assoc, List.append_assoc, List.append_assoc]
      exact ⟨_, _, htask, htr, hA, hcl⟩

/-- Witness of C13: the session of device 0, one frame read, then a failed read. -/
theorem capture_acknowledges_once_witness :
    API selected0.apis selected0.config.VideoCaptureAPI ≠ none ∧
    opened0.active.closedq ≠ opened0.active.errq ∧
    ∃ s1 evs, captureTask env0 hwGood [(true, ⟨1080, 1920, 7⟩), (false, ⟨0, 0, 0⟩)]
        opened0.active selected0 = some s1 ∧
      s1.trace = selected0.trace ++ evs ∧
      AcknowledgedOnce opened0.active hwGood.opens evs ∧
      opened0.active.closedq ∈ s1.closed :=
  ⟨by decide, by decide,
    capture_acknowledges_once env0 hwGood [(true, ⟨1080, 1920, 7⟩), (false, ⟨0, 0, 0⟩)]
      opened0.active selected0 (by decide) (by decide)⟩

/-! ## Reset and the following `Open`: theorems -/

/-- Appending one more event after events `X` appended to `t`. -/
theorem trace_snoc {t tr X : List Event} (e : Event) (h : tr = t ++ X) :
    tr ++ [e] = t ++ (X ++ [e]) := by
  rw [h, List.append_assoc]

/-- A call of `Open` that returns at once returns nil, having logged at most one
debug message. -/
theorem Open_returned_trace (env : Env) (s s2 : Sys) (err : Option String)
    (h : Open env s = .returned err s2) :
    err = none ∧ ∃ Y, s2.trace = s.trace ++ Y := by
  simp only [Open] at h
  split at h
  · simp at h; obtain ⟨rfl, rfl⟩ := h; exact ⟨rfl, [], by simp⟩
  · split at h
    · simp at h; obtain ⟨rfl, rfl⟩ := h; exact ⟨rfl, _, rfl⟩
    · split at h <;> simp at h

/-- A call of `Close` that returns at once was made on the sentinel session. -/
theorem Close_returned_trace (env : Env) (s s2 : Sys) (err : Option String)
    (h : Close env s = .returned err s2) :
    IsActive env s = false ∧ ∃ Y, s2.trace = s.trace ++ Y := by
  simp only [Close] at h
  split at h
  · next hact =>
    simp at h; obtain ⟨-, rfl⟩ := h
    exact ⟨by simp [IsActive, hact], _, rfl⟩
  · simp at h

/-- The startup of `capture` only appends to the trace. -/
theorem capture_trace_append (env : Env) (hw : Hardware) (d : device) (s s1 : Sys)
    (err : Option String) (phase : Phase)
    (h : capture env hw d s = some (err, phase, s1)) :
    ∃ pre, s1.trace = s.trace ++ pre ∧ s1.config = s.config := by
  simp only [capture] at h
  split at h
  · simp at h
  · split at h
    · simp only [Option.some.injEq, Prod.mk.injEq] at h
      obtain ⟨-, -, rfl⟩ := h
      exact ⟨_, rfl, rfl⟩
    · split at h
      · simp only [Option.some.injEq, Prod.mk.injEq] at h
        obtain ⟨-, -, rfl⟩ := h
        exact ⟨_, trace_snoc _ (trace_snoc _ rfl), rfl⟩
      · split at h
        · simp only [Option.some.injEq, Prod.mk.injEq] at h
          obtain ⟨-, -, rfl⟩ := h
          exact ⟨_, trace_snoc _ (trace_snoc _ rfl), rfl⟩
        · simp only [Option.some.injEq, Prod.mk.injEq] at h
          obtain ⟨-, -, rfl⟩ := h
          exact ⟨_, trace_snoc _ (trace_snoc _ (trace_snoc _ rfl)), rfl⟩

/-- The discovery pass emits debug notifications only. -/
theorem discoverLoop_notes (s : List Int) (n rest : List String) (cat : Catalog) :
    ∀ e ∈ (discoverLoop s n rest cat).2, ∃ text, e = Event.notify .Debug text := by
  induction rest with
  | nil => simp [discoverLoop]
  | cons got rest ih =>
    simp only [discoverLoop]
    split
    · intro e he
      simp at he
      exact ⟨_, he⟩
    · exact ih

/-- What a move appends to the trace; when the appended events end in the return
of `Open` with an error, or in the return of a `Close` called on an active
session, the move has run `reset()` and the caller is idle. -/
theorem step_returned (env : Env) (s s1 : Sys) (a : Action)
    (h : step env s a = some s1) :
    ∃ X, s1.trace = s.trace ++ X ∧
      (((∃ e, X.getLast? = some (Event.openReturned (some e))) ∨
          (IsActive env s = true ∧ X.getLast? = some Event.closeReturned)) →
        s1.caller = .idle ∧ s1.config.VideoCaptureDevice = env.NoVideoCaptureDevice ∧
          s1.active.id = env.NoVideoCaptureDevice) := by
  cases a with
  | callOpen =>
    cases hc : s.caller with
    | idle =>
      simp only [step, hc] at h
      cases ho : Open env s with
      | panic => simp [ho] at h
      | returned err s2 =>
        simp [ho] at h; subst h
        obtain ⟨rfl, Y, hY⟩ := Open_returned_trace env s s2 err ho
        refine ⟨Y ++ [Event.openReturned none], by simp [Sys.emit, hY], ?_⟩
        rintro (⟨e, he⟩ | ⟨-, he⟩) <;> simp at he
      | blocked s2 =>
        simp [ho] at h; subst h
        simp only [Open] at ho
        split at ho
        · simp at ho
        · split at ho
          · simp at ho
          · split at ho
            · simp at ho
            · simp at ho; subst ho
              refine ⟨[Event.spawn _], rfl, ?_⟩
              rintro (⟨e, he⟩ | ⟨-, he⟩) <;> simp at he
    | opening d => simp [step, hc] at h
    | stopping d fired => simp [step, hc] at h
    | draining d => simp [step, hc] at h
  | callClose =>
    cases hc : s.caller with
    | idle =>
      simp only [step, hc] at h
      cases ho : Close env s with
      | panic => simp [ho] at h
      | returned err s2 =>
        simp [ho] at h; subst h
        obtain ⟨hact, Y, hY⟩ := Close_returned_trace env s s2 err ho
        refine ⟨Y ++ [Event.closeReturned], by simp [Sys.emit, hY], ?_⟩
        rintro (⟨e, he⟩ | ⟨hA, -⟩)
        · simp at he
        · rw [hact] at hA; cases hA
      | blocked s2 =>
        simp [ho] at h; subst h
        have e := Close_blocked_core env s s2 ho
        subst e
        refine ⟨[], by simp, ?_⟩
        rintro (⟨e, he⟩ | ⟨-, he⟩) <;> simp at he
    | opening d => simp [step, hc] at h
    | stopping d fired => simp [step, hc] at h
    | draining d => simp [step, hc] at h
  | configure c =>
    cases hc : s.caller <;> simp [step, hc] at h
    subst h
    refine ⟨[], by simp, ?_⟩
    rintro (⟨e, he⟩ | ⟨-, he⟩) <;> simp at he
  | startup k hw =>
    simp only [step] at h
    split at h
    · next d dk hc hk =>
      split at h
      · split at h
        · simp at h
        · next err phase s2 hcap =>
          obtain ⟨pre, hpre, hcfg⟩ := capture_trace_append env hw dk s s2 err phase hcap
          cases err with
          | none =>
            simp [OpenReceived] at h; subst h
            refine ⟨pre ++ [Event.openReturned none], by simp [Sys.emit, hpre], ?_⟩
            rintro (⟨e, he⟩ | ⟨-, he⟩) <;> simp at he
          | some e0 =>
            simp [OpenReceived] at h; subst h
            refine ⟨pre ++ [Event.openReturned (some e0)],
              by simp [Sys.emit, reset, hpre], ?_⟩
            intro _
            simp [Sys.emit, reset]
      · simp at h
    · simp at h
  | frame k ok f =>
    simp only [step] at h
    split at h
    · simp only [captureRead] at h
      split at h
      · simp at h; subst h
        refine ⟨[Event.notify .Warn _], rfl, ?_⟩
        rintro (⟨e, he⟩ | ⟨-, he⟩) <;> simp at he
      · simp at h; subst h
        refine ⟨[], by simp, ?_⟩
        rintro (⟨e, he⟩ | ⟨-, he⟩) <;> simp at he
    · simp at h
  | offer k =>
    simp only [step] at h
    split at h
    · split at h
      · simp at h; subst h
        refine ⟨[], by simp, ?_⟩
        rintro (⟨e, he⟩ | ⟨-, he⟩) <;> simp at he
      · simp at h
    · simp at h
  | deferred k =>
    simp only [step] at h
    split at h
    · next dk handle hk =>
      simp at h; subst h
      obtain ⟨ht, -⟩ := captureDeferred_trace dk handle s
      refine ⟨_, ht, ?_⟩
      rintro (⟨e, he⟩ | ⟨-, he⟩) <;> simp at he
    · next dk hk =>
      simp at h; subst h
      obtain ⟨ht, -⟩ := captureDeferred_trace dk true s
      refine ⟨_, ht, ?_⟩
      rintro (⟨e, he⟩ | ⟨-, he⟩) <;> simp at he
    · simp at h
  | acked =>
    simp only [step] at h
    split at h
    · split at h
      · split at h
        · simp at h; subst h
          refine ⟨[], by simp, ?_⟩
          rintro (⟨e, he⟩ | ⟨-, he⟩) <;> simp at he
        · simp at h; subst h
          refine ⟨[Event.notify .Debug _] ++ [Event.closeReturned], trace_snoc _ rfl, ?_⟩
          intro _
          simp [Sys.emit, CloseStopped, reset]
      · simp at h
    · simp at h
  | timeout =>
    simp only [step] at h
    split at h
    · simp at h; subst h
      refine ⟨[Event.notify .Error _], rfl, ?_⟩
      rintro (⟨e, he⟩ | ⟨-, he⟩) <;> simp at he
    · simp at h
  | discovery deviceName =>
    simp only [step] at h
    simp at h; subst h
    refine ⟨(discover (sources deviceName).1 (sources deviceName).2 ⟨s.Sources, s.names⟩).2,
      rfl, ?_⟩
    have hn := discoverLoop_notes (sources deviceName).1 (sources deviceName).2
      (sources deviceName).2 ⟨s.Sources, s.names⟩
    rintro (⟨e, he⟩ | ⟨-, he⟩)
    · obtain ⟨text, ht⟩ := hn _ (List.mem_of_getLast?_eq_some he)
      cases ht
    · obtain ⟨text, ht⟩ := hn _ (List.mem_of_getLast?_eq_some he)
      cases ht

/-- C15: when a move ends in `Open()` returning an error, or in the return of a
`Close()` called on an active session, the configured device is the sentinel;
and an `Open()` that follows directly returns nil, makes no session and no
channel, spawns no task, and leaves `IsActive()` false. -/
theorem reset_then_open (env : Env) (s s1 : Sys) (a : Action)
    (hstep : step env s a = some s1)
    (hret : (∃ evs e, s1.trace = s.trace ++ evs ++ [Event.openReturned (some e)]) ∨
      (IsActive env s = true ∧ ∃ evs, s1.trace = s.trace ++ evs ++ [Event.closeReturned])) :
    s1.config.VideoCaptureDevice = env.NoVideoCaptureDevice ∧
    ∃ s2, step env s1 .callOpen = some s2 ∧
      s2.trace = s1.trace ++ [Event.openReturned none] ∧
      s2.active = s1.active ∧ s2.tasks = s1.tasks ∧ s2.next = s1.next ∧
      s2.caller = .idle ∧ IsActive env s2 = false := by
  obtain ⟨X, hX, himp⟩ := step_returned env s s1 a hstep
  have hlast : (∃ e, X.getLast? = some (Event.openReturned (some e))) ∨
      (IsActive env s = true ∧ X.getLast? = some Event.closeReturned) := by
    rcases hret with ⟨evs, e, he⟩ | ⟨hA, evs, he⟩
    · left
      rw [hX, List.append_assoc] at he
      have := List.append_cancel_left he
      exact ⟨e, by rw [this]; simp⟩
    · right
      rw [hX, List.append_assoc] at he
      have := List.append_cancel_left he
      exact ⟨hA, by rw [this]; simp⟩
  obtain ⟨hc, hcfg, hact⟩ := himp hlast
  refine ⟨hcfg, s1.emit (Event.openReturned none), ?_, rfl, rfl, rfl, rfl, ?_, ?_⟩
  · simp [step, hc, Open, hcfg]
  · simpa [Sys.emit] using hc
  · simp [IsActive, Sys.emit, hact]

/-- Witness of C15: the `Open()` of device 0 that fails because the device does
not open, and the acknowledged `Close()` of the session of device 0. -/
theorem reset_then_open_witness :
    (step env0 opening0 (.startup 0 hwClosed) = some failed0 ∧
      failed0.trace = opening0.trace ++
        [Event.notify .System "Device: Opening \"CamA\" with API \"video-capture-any\""] ++
        [Event.openReturned (some "CamA does not support video-capture-any encoding")] ∧
      failed0.config.VideoCaptureDevice = env0.NoVideoCaptureDevice ∧
      ∃ s2, step env0 failed0 .callOpen = some s2 ∧
        s2.trace = failed0.trace ++ [Event.openReturned none] ∧
        s2.active = failed0.active ∧ s2.tasks = failed0.tasks ∧ s2.next = failed0.next ∧
        s2.caller = .idle ∧ IsActive env0 s2 = false) ∧
    (step env0 acked0 .acked = some closed0 ∧ IsActive env0 acked0 = true ∧
      closed0.trace = acked0.trace ++
        [Event.notify .Debug "Device: Closed \"CamA\"..."] ++ [Event.closeReturned] ∧
      closed0.config.VideoCaptureDevice = env0.NoVideoCaptureDevice ∧
      ∃ s2, step env0 closed0 .callOpen = some s2 ∧
        s2.trace = closed0.trace ++ [Event.openReturned none] ∧
        s2.active = closed0.active ∧ s2.tasks = closed0.tasks ∧ s2.next = closed0.next ∧
        s2.caller = .idle ∧ IsActive env0 s2 = false) :=
  ⟨⟨by decide, by decide,
      reset_then_open env0 opening0 failed0 (.startup 0 hwClosed) (by decide)
        (Or.inl ⟨[Event.notify .System
            "Device: Opening \"CamA\" with API \"video-capture-any\""],
          "CamA does not support video-capture-any encoding", by decide⟩)⟩,
    ⟨by decide, by decide, by decide,
      reset_then_open env0 acked0 closed0 .acked (by decide)
        (Or.inr ⟨by decide, [Event.notify .Debug "Device: Closed \"CamA\"..."],
          by decide⟩)⟩⟩

end Device
